import Mathlib

/-!
Verification of the conversational core of a personal-assistant chat bot.

The development shallowly embeds the message-handling logic of `main.py`
(confirmation parsing, the per-session pending-interaction state machine)
and the person-matching logic of `classifier.py` (identifier extraction,
fuzzy name scoring, similar-person search, person persistence).

External collaborators (the language-model classification gateway, the
spreadsheet store, the answer-generation calls) are modelled as inputs:
their results are fields of an `Oracle` record passed to the handler, and
store writes are recorded as an effect trace rather than performed.
-/

namespace SecondBrain

/-- Lower-casing of one character as Python `str.lower` behaves on the
ASCII and Latin-1 ranges (the only cased characters appearing in this
program and its lexicons). -/
def pyLowerChar (c : Char) : Char :=
  if 'A' ≤ c && c ≤ 'Z' then Char.ofNat (c.toNat + 32)
  else if 0xC0 ≤ c.toNat && c.toNat ≤ 0xDE && c.toNat != 0xD7 then Char.ofNat (c.toNat + 32)
  else c

/-- Upper-casing of one character (ASCII), used by `str.capitalize`. -/
def pyUpperChar (c : Char) : Char :=
  if 'a' ≤ c && c ≤ 'z' then Char.ofNat (c.toNat - 32) else c

/-- Python `str.lower` on whole strings. -/
def pyLower (s : String) : String := String.mk (s.toList.map pyLowerChar)

/-- Whitespace as recognized by Python `str.strip()`. -/
def isSpaceChar (c : Char) : Bool :=
  c == ' ' || c == '\t' || c == '\n' || c == '\r' || c == '\x0b' || c == '\x0c'

/-- Strip leading and trailing whitespace from a character list. -/
def trimL (l : List Char) : List Char :=
  ((l.dropWhile isSpaceChar).reverse.dropWhile isSpaceChar).reverse

/-- Python `str.strip()`. -/
def pyStrip (s : String) : String := String.mk (trimL s.toList)

/-- Boolean list-prefix test. -/
def listPrefixB : List Char → List Char → Bool
  | [], _ => true
  | _ :: _, [] => false
  | a :: as, b :: bs => a == b && listPrefixB as bs

/-- Boolean contiguous-sublist test: does `p` occur inside the second list. -/
def listInfixB (p : List Char) : List Char → Bool
  | [] => listPrefixB p []
  | c :: cs => listPrefixB p (c :: cs) || listInfixB p cs

/-- Python `sub in hay` substring containment. -/
def strContains (hay sub : String) : Bool := listInfixB sub.toList hay.toList

/-- Python `s.startswith(pre)`. -/
def pyStartsWith (s pre : String) : Bool := listPrefixB pre.toList s.toList

/-- Replace every (leftmost, non-overlapping) occurrence of a nonempty
pattern, as Python `str.replace`; an empty pattern is left alone (the
program never replaces an empty pattern). -/
def replaceFuel (pat rep : List Char) : Nat → List Char → List Char
  | 0, l => l
  | _, [] => []
  | fuel + 1, c :: cs =>
    if pat ≠ [] ∧ listPrefixB pat (c :: cs) then
      rep ++ replaceFuel pat rep fuel (List.drop (pat.length - 1) cs)
    else c :: replaceFuel pat rep fuel cs

/-- Replacement entry point; every step consumes at least one character,
so fuel equal to the length is exact. -/
def replaceL (pat rep l : List Char) : List Char := replaceFuel pat rep l.length l

/-- Python `s.replace(pat, rep)`. -/
def pyReplace (s pat rep : String) : String :=
  String.mk (replaceL pat.toList rep.toList s.toList)

/-- Python `s.rstrip(chars)`: drop trailing characters drawn from `cs`. -/
def pyRstrip (s : String) (cs : List Char) : String :=
  String.mk ((s.toList.reverse.dropWhile (fun c => cs.contains c)).reverse)

/-- Accumulator pass of the whitespace splitter: `cur` is the current
word, reversed. -/
def splitWSAcc : List Char → List Char → List (List Char)
  | [], cur => if cur.isEmpty then [] else [cur.reverse]
  | c :: cs, cur =>
    if isSpaceChar c then
      if cur.isEmpty then splitWSAcc cs [] else cur.reverse :: splitWSAcc cs []
    else splitWSAcc cs (c :: cur)

/-- Split a character list on whitespace runs, dropping empty fields. -/
def splitWSL (l : List Char) : List (List Char) := splitWSAcc l []

/-- Python `s.split()` with no argument: split on whitespace runs,
dropping empty fields. -/
def pySplit (s : String) : List String :=
  (splitWSL s.toList).map String.mk

/-- Python `s[:n]` character-level prefix. -/
def pyTake (s : String) (n : Nat) : String := String.mk (s.toList.take n)

/-- Nonnegative rational score represented as an unreduced
numerator/denominator pair (the program uses floats only as scores and
confidences in `[0,1]`; comparisons are by cross-multiplication, so the
representation is never normalized). -/
structure Frac where
  num : Nat
  den : Nat
deriving Repr, DecidableEq, Inhabited

/-- Cross-multiplication comparison of score fractions. -/
def Frac.le (a b : Frac) : Bool := a.num * b.den ≤ b.num * a.den

/-- Strict cross-multiplication comparison of score fractions. -/
def Frac.lt (a b : Frac) : Bool := a.num * b.den < b.num * a.den

/-- Truncation of `100 * f` to an integer, as Python `int(conf * 100)` on
a nonnegative value. -/
def Frac.percent (f : Frac) : Nat := 100 * f.num / f.den

/-- Python `s.isdigit()` restricted to ASCII digits. -/
def pyIsDigit (s : String) : Bool :=
  s ≠ "" && s.toList.all (fun c => '0' ≤ c && c ≤ '9')

/-- Numeric value of an ASCII digit string, as Python `int(s)`. -/
def natOfDigits (s : String) : Nat :=
  s.toList.foldl (fun a c => 10 * a + (c.toNat - 48)) 0

/-- Python `s.capitalize()`: first character upper-cased, rest lowered. -/
def pyCapitalize (s : String) : String :=
  match s.toList with
  | [] => ""
  | c :: cs => String.mk (pyUpperChar c :: cs.map pyLowerChar)

/-- Count of positions where the two lists agree, as
`sum(c1 == c2 for c1, c2 in zip(n1, n2))` (zip truncates). -/
def countEq : List Char → List Char → Nat
  | a :: as, b :: bs => (if a = b then 1 else 0) + countEq as bs
  | _, _ => 0

/-- Index of the first occurrence of `pat`, as Python `str.find` when the
pattern is known to occur. -/
def findIdxL (pat : List Char) : List Char → Option Nat
  | [] => if listPrefixB pat [] then some 0 else none
  | c :: cs => if listPrefixB pat (c :: cs) then some 0 else (findIdxL pat cs).map (· + 1)

/-! ## Confirmation parsing (`main.py`, `AFFIRMATIVE` / `NEGATIVE` / `parse_confirmation`)

The lexicons are transcribed verbatim from the source, including its
literally mis-encoded emoji entries (the source file stores those
characters exactly as the escaped code points below). -/

/-- Affirmative reply lexicon from `main.py`. -/
def AFFIRMATIVE : List String := [
  "y", "yes", "yea", "yeah", "yep", "yup", "ya", "ye", "ys",
  "mhm", "mm", "mmhm", "uh huh", "uhuh", "sure", "ok", "okay", "k", "kk",
  "correct", "right", "exactly", "indeed", "absolutely", "definitely", "certainly",
  "totally", "for sure", "of course",
  "that\x27s him", "thats him", "that\x27s her", "thats her", "that\x27s them", "thats them",
  "that\x27s the one", "thats the one", "the one", "that one", "this one",
  "him", "her", "them", "same", "same one", "same person", "same guy", "same dude",
  "bingo", "yessir", "yes sir", "yesss", "yass", "yasss", "yaaas",
  "bet", "word", "facts", "true", "tru", "aight", "ight", "fosho", "fo sho",
  "si", "oui", "ja", "hai", "da",
  "\uF8FF\u00FC\u00EB\u00E7", "\u201A\u00FA\u00D6", "\uF8FF\u00FC\u00EB\u00E5", "\uF8FF\u00FC\u00F4\u00E5", "\uF8FF\u00FC\u00ED\u00D8", "\u201A\u00FA\u00EE", "\u201A\u00F2\u00EB",
  "yse", "yess", "yea h", "yeap", "yep!", "yes!", "ya!", "yeah!"]

/-- Negative reply lexicon from `main.py`. -/
def NEGATIVE : List String := [
  "n", "no", "nah", "nope", "nop", "na", "nay",
  "not really", "not him", "not her", "not them", "not that one",
  "wrong", "wrong one", "wrong person", "wrong guy",
  "different", "different one", "different person", "different guy",
  "another", "another one", "another person", "another guy",
  "new", "new one", "new person", "create new", "make new", "add new",
  "nuh uh", "nuhuh", "nu uh", "negative", "negatory",
  "cap", "nada", "no way", "hell no", "heck no",
  "nothing", "nevermind", "never mind", "forget it", "skip", "none",
  "\uF8FF\u00FC\u00EB\u00E9", "\u201A\u00F9\u00E5", "\u201A\u00FA\u00F1", "\uF8FF\u00FC\u00F6\u00B4",
  "ni", "np", "noo", "nooo", "nope!"]

/-- Embedding of `parse_confirmation` from `main.py`: lower-case and trim
the reply, try exact membership in the affirmative then the negative
lexicon, then scan each lexicon for contained phrases longer than two
characters, and fall back to OTHER. -/
def parse_confirmation (reply : String) : String :=
  let r := pyStrip (pyLower reply)
  if AFFIRMATIVE.contains r then "CONFIRM"
  else if NEGATIVE.contains r then "DENY"
  else if AFFIRMATIVE.any (fun p => p.length > 2 && strContains r p) then "CONFIRM"
  else if NEGATIVE.any (fun p => p.length > 2 && strContains r p) then "DENY"
  else "OTHER"

/-! ## Identifier extraction (`classifier.py`, `extract_identifier`) -/

/-- Join words with single spaces, as Python `" ".join`. -/
def joinSpace : List String → String
  | [] => ""
  | [w] => w
  | w :: ws => w ++ " " ++ joinSpace ws

/-- Trailing-punctuation set used by `extract_identifier`. -/
def punctSet : List Char := ['.', ',', ';', ':']

/-- Shared cue-scan helper of `extract_identifier`: for the first keyword
found in the lowered context, take up to `n` words of the original text
after it, join them, strip trailing punctuation and prepend `pre`; if the
remainder has no words, continue with the next keyword. -/
def afterKeyword (context cl : List Char) (n : Nat) (pre : String) : List String → Option String
  | [] => none
  | kw :: rest =>
    match findIdxL kw.toList cl with
    | some i =>
      let restStr := String.mk (trimL (context.drop (i + kw.length)))
      let ws := (pySplit restStr).take n
      if ws.isEmpty then afterKeyword context cl n pre rest
      else some (pre ++ pyRstrip (joinSpace ws) punctSet)
    | none => afterKeyword context cl n pre rest

/-- Relationship keywords of `extract_identifier`, in source order. -/
def relationKeywords : List String :=
  ["roommate", "friend", "colleague", "brother", "sister", "wife", "husband",
   "partner", "boss", "manager", "coworker"]

/-- Embedding of `extract_identifier` from `classifier.py`: workplace cue,
then relationship keyword, then location cue, then event cue, then the
first up-to-three words of the context. -/
def extract_identifier (context : String) : String :=
  if context = "" then ""
  else
    let ctx := context.toList
    let cl := (pyLower context).toList
    match afterKeyword ctx cl 1 "from " ["works at", "at ", "from ", "@ "] with
    | some r => r
    | none =>
      match relationKeywords.find? (fun rel => strContains (pyLower context) rel) with
      | some rel => "your " ++ rel
      | none =>
        match afterKeyword ctx cl 1 "in " ["lives in", "in ", "based in"] with
        | some r => r
        | none =>
          match afterKeyword ctx cl 3 "from the " ["met at", "from the", "at the"] with
          | some r => r
          | none =>
            let ws := (pySplit context).take 3
            if ws.isEmpty then "" else pyRstrip (joinSpace ws) punctSet

/-! ## Fuzzy name matching (`classifier.py`, `fuzzy_match_name`) -/

/-- First whitespace token of a name, or the name itself when it has no
tokens, as `n.split()[0] if n.split() else n`. -/
def firstToken (s : String) : String :=
  match pySplit s with
  | w :: _ => w
  | [] => s

/-- Embedding of `fuzzy_match_name` from `classifier.py`: exact
case-insensitive match scores 1, containment either way scores 0.9, equal
first tokens score 0.85, otherwise the ratio of positionally equal
characters to the longer length (0 when both names are empty). -/
def fuzzy_match_name (name1 name2 : String) : Frac :=
  let n1 := pyStrip (pyLower name1)
  let n2 := pyStrip (pyLower name2)
  if n1 = n2 then Frac.mk 1 1
  else if strContains n2 n1 || strContains n1 n2 then Frac.mk 9 10
  else if firstToken n1 = firstToken n2 then Frac.mk 85 100
  else
    let longer := max n1.length n2.length
    if longer = 0 then Frac.mk 0 1
    else Frac.mk (countEq n1.toList n2.toList) longer

/-! ## Similar-person search (`classifier.py`, `find_similar_person`)

The spreadsheet read is external: the sheet content (all rows of the
People table, header first) is a parameter of the embedding. -/

/-- Match record built by `find_similar_person`. -/
structure FSMatch where
  row_idx : Nat
  name : String
  context : String
  notes : String
  follow_ups : String
  last_touched : String
  score : Frac
deriving Repr, DecidableEq

/-- Activity test of a sheet row: nonempty and last cell equals TRUE, as
`len(row) >= 1 and row[-1] == "TRUE"`. -/
def rowActive (row : List String) : Bool :=
  decide (row.length ≥ 1) && (row.getLast? == some "TRUE")

/-- Match record for a row, with absent cells read as empty strings. -/
def mkFSMatch (idx : Nat) (row : List String) (score : Frac) : FSMatch :=
  { row_idx := idx, name := row.getD 0 "", context := row.getD 1 "",
    notes := row.getD 2 "", follow_ups := row.getD 3 "",
    last_touched := row.getD 4 "", score := score }

/-- Loop of `find_similar_person`: keep the best match so far, replacing
it only on a strictly larger score that is at least 0.8. -/
def findSimilarAux (name : String) :
    List (List String) → Nat → Frac → Option FSMatch → Option FSMatch
  | [], _, _, best => best
  | row :: rest, idx, bestScore, best =>
    if rowActive row then
      let score := fuzzy_match_name name (row.getD 0 "")
      if Frac.lt bestScore score && Frac.le (Frac.mk 8 10) score then
        findSimilarAux name rest (idx + 1) score (some (mkFSMatch idx row score))
      else findSimilarAux name rest (idx + 1) bestScore best
    else findSimilarAux name rest (idx + 1) bestScore best

/-- Embedding of `find_similar_person` from `classifier.py`: scan the data
rows (the header row is skipped, data rows are numbered from 2) and return
the single best-scoring active match, or none. -/
def find_similar_person (name : String) (allRows : List (List String)) : Option FSMatch :=
  findSimilarAux name (allRows.drop 1) 2 (Frac.mk 0 1) none

/-- Insertion of a match into a list kept in descending score order. -/
def insertByScore (m : FSMatch) : List FSMatch → List FSMatch
  | [] => [m]
  | x :: xs => if Frac.lt x.score m.score then m :: x :: xs else x :: insertByScore m xs

/-- Candidate-search contract written from the specification text, for
comparison with the source function: all active records scoring at least
0.8, as a list ordered by descending score, ties all retained. -/
def find_candidates_spec (name : String) (allRows : List (List String)) : List FSMatch :=
  let scored := ((allRows.drop 1).enum.filterMap (fun p =>
    let row := p.2
    if rowActive row then
      let score := fuzzy_match_name name (row.getD 0 "")
      if Frac.le (Frac.mk 8 10) score then some (mkFSMatch (p.1 + 2) row score) else none
    else none))
  scored.foldl (fun acc m => insertByScore m acc) []

/-! ## Person persistence (`classifier.py`, `save_or_update_person`)

Sheet writes are external; the embedding returns the action the function
performs (update an existing row, create a new row, or fail on an empty
name). -/

/-- Lookup in a string-keyed field mapping with a default, as
`fields.get(key, dflt)`. -/
def fieldsGet (fields : List (String × String)) (k dflt : String) : String :=
  match fields.find? (fun kv => kv.1 == k) with
  | some kv => kv.2
  | none => dflt

/-- Action performed by `save_or_update_person`. -/
inductive PersonSaveResult where
  | updated (rowIdx : Nat) (newNotes : String)
  | created (row : List String)
  | failed
deriving Repr, DecidableEq

/-- Search for an existing active person row by case-insensitive exact
name, data rows numbered from 2. -/
def findExistingPersonIdx (name : String) : List (List String) → Nat → Option Nat
  | [], _ => none
  | row :: rest, idx =>
    if decide (row.length ≥ 1) && (pyLower (row.getD 0 "") == pyLower name)
        && (row.getLast? == some "TRUE") then some idx
    else findExistingPersonIdx name rest (idx + 1)

/-- Embedding of `save_or_update_person` from `classifier.py`: with an
empty name it fails; with `force_new` it skips the duplicate search and
creates a fresh row; otherwise an existing active row with the same name
(case-insensitive) gets the dated note appended, and a fresh row is
created when none exists. -/
def save_or_update_person (allRows : List (List String)) (fields : List (String × String))
    (capturedText : String) (messageId : Nat) (timestamp : String) (forceNew : Bool) :
    PersonSaveResult :=
  let name := pyStrip (fieldsGet fields "name" "")
  if name = "" then .failed
  else
    let foundIdx := if forceNew then none else findExistingPersonIdx name (allRows.drop 1) 2
    let noteEntry := "[" ++ pyTake timestamp 10 ++ "] " ++ capturedText
    match foundIdx with
    | some idx =>
      let currentNotes := (allRows.getD (idx - 1) []).getD 2 ""
      let newNotes := if currentNotes ≠ "" then currentNotes ++ " • " ++ noteEntry else noteEntry
      .updated idx newNotes
    | none =>
      .created [name, fieldsGet fields "context" "", noteEntry,
                fieldsGet fields "follow_ups" "", timestamp, toString messageId, "TRUE"]

/-! ## Session data model (`main.py`, `handle_message`)

One session per chat. The per-session mutable dictionary of the bot
framework holds up to four keys, modelled as four optional slots. All
external collaborators (classification gateway, question detector,
answer generation, spreadsheet store) are modelled by an `Oracle` record
carrying their results for the one message being processed, and store
writes are recorded in an effect trace. -/

/-- Person record as read back from the store. -/
structure Person where
  row_idx : Nat
  name : String
  context : String
  notes : String
  follow_ups : String
  last_touched : String
deriving Repr, DecidableEq, Inhabited

/-- Classification result: bucket, confidence and extracted fields. -/
structure Classification where
  bucket : String
  confidence : Frac
  fields : List (String × String)
deriving Repr, DecidableEq, Inhabited

/-- Pending low-confidence bucket correction (`pending_message`). -/
structure PendingMsg where
  original_text : String
  classification : Classification
  message_id : Nat
deriving Repr, DecidableEq

/-- Pending merge decision (`pending_merge`). -/
structure PendingMerge where
  original_text : String
  classification : Classification
  message_id : Nat
  existing_person : Option Person
  all_matches : List Person
deriving Repr, DecidableEq

/-- Pending person-question selection (`pending_person_question`). -/
structure PendingPQ where
  original_question : String
  matchList : List Person
deriving Repr, DecidableEq

/-- Last saved message, kept for the fix command (`last_message`). -/
structure LastMsg where
  message_id : Nat
  original_text : String
  classification : Classification
deriving Repr, DecidableEq

/-- Per-session state: the four `context.user_data` keys. -/
structure SessState where
  pending_person_question : Option PendingPQ
  pending_message : Option PendingMsg
  pending_merge : Option PendingMerge
  last_message : Option LastMsg
deriving Repr, DecidableEq

/-- Session state with no pending interaction and no last message. -/
def SessState.idle : SessState := ⟨none, none, none, none⟩

/-- Results of all external calls that one `handle_message` run may make:
the question detector, the people-table read, the similar-person search
(an external list-valued contract in the specification), the classifier,
and the success flags of store writes, plus the language-model answer
texts. -/
structure Oracle where
  qIsQuestion : Bool
  qQuery : Option String
  allPeople : List Person
  similarMatches : List Person
  classification : Classification
  saveOk : Bool
  appendOk : Bool
  fixOk : Bool
  fixOldBucket : String
  answerPeople : String → List Person → String
  answerAction : String → String
  actionDataOk : Bool
  digestDataOk : Bool
  digestEmpty : Bool
  digestText : Option String
  topReply : String
deriving Inhabited

/-- Store writes performed by a run, in order. -/
inductive Effect where
  | appendToPerson (rowIdx : Nat) (text : String) (fields : List (String × String))
      (messageId : Nat)
  | saveEntry (text : String) (cls : Classification) (messageId : Nat) (forceNew : Bool)
  | fixEntry (messageId : Nat) (newBucket : String)
deriving Repr, DecidableEq

/-- Result of one `handle_message` run: next session state, replies sent,
store writes performed. -/
structure StepOut where
  state : SessState
  replies : List String
  effects : List Effect
deriving Repr, DecidableEq

/-- Valid bucket tokens. -/
def bucketTokens : List String := ["people", "ideas", "interviews", "things", "linkedin"]

/-- Bucket shortcut table of `main.py`. -/
def BUCKET_SHORTCUTS : List (String × String) := [
  ("ppl", "people"), ("p", "people"), ("people", "people"),
  ("idea", "ideas"), ("ideas", "ideas"), ("i", "ideas"),
  ("int", "interviews"), ("interview", "interviews"), ("interviews", "interviews"),
  ("things", "things"), ("thing", "things"), ("t", "things"),
  ("li", "linkedin"), ("ln", "linkedin"), ("linkedin", "linkedin"), ("l", "linkedin")]

/-- Table shortcut table of `main.py`. -/
def TABLE_SHORTCUTS : List (String × String) := [
  ("ppl", "People"), ("p", "People"), ("people", "People"),
  ("idea", "Ideas"), ("ideas", "Ideas"), ("i", "Ideas"),
  ("int", "Interviews"), ("interview", "Interviews"), ("interviews", "Interviews"),
  ("things", "Things"), ("thing", "Things"), ("t", "Things"),
  ("li", "LinkedIn"), ("ln", "LinkedIn"), ("linkedin", "LinkedIn"), ("l", "LinkedIn"),
  ("all", "all")]

/-- Actionable-query trigger phrases of `main.py`. -/
def actionPhrases : List String := [
  "items for today", "give me top things for today",
  "what do i need to do today", "what\x27s due today", "whats due today",
  "today\x27s tasks", "todays tasks", "what\x27s on my plate", "whats on my plate",
  "what should i do today", "what do i have today", "anything pending",
  "my tasks", "my actions", "what\x27s pending", "whats pending",
  "what do i need to do", "what should i do", "what should i focus on",
  "anything for today", "tasks for today", "what\x27s up for today",
  "whats up for today", "priorities", "priorities for today",
  "what\x27s coming up", "whats coming up", "anything due today",
  "what\x27s happening today", "whats happening today", "to do list",
  "todo list", "todos", "to dos",
  "tasks for this week", "this week\x27s tasks", "this weeks tasks",
  "what\x27s due this week", "whats due this week", "anything this week",
  "what do i have this week", "priorities this week", "what\x27s coming up this week",
  "whats coming up this week", "anything pending this week",
  "weekly tasks", "week ahead", "the week ahead"]

/-- Generic save-error reply. -/
def errSavingMsg : String := "‚ùå Error saving. Please try again."

/-- Generic update-error reply. -/
def errUpdatingMsg : String := "‚ùå Error updating. Please try again."

/-- Out-of-range numeric selection re-prompt. -/
def pickNumberMsg (n : Nat) : String := "Pick a number between 1 and " ++ toString n

/-- Re-prompt for a CONFIRM with several candidates and no preselection. -/
def pickOrIdentifierMsg : String := "Please pick a number or type an identifier."

/-- Lookup in a shortcut table. -/
def lookupStr (l : List (String × String)) (k : String) : Option String :=
  (l.find? (fun kv => kv.1 == k)).map (fun kv => kv.2)

/-- Identifier-word test of the selection scans: the candidate context
yields a nonempty identifier one of whose words longer than two
characters occurs in the lowered reply. -/
def identifierHit (userLower : String) (context : String) : Bool :=
  let idf := extract_identifier context
  idf ≠ "" &&
    (pySplit (pyReplace (pyReplace (pyLower idf) "from " "") "your " "")).any
      (fun w => w.length > 2 && strContains userLower w)

/-- First candidate whose identifier words match the reply, in list
order. -/
def findIdentifierMatch (userLower : String) : List Person → Option Person
  | [] => none
  | p :: ps => if identifierHit userLower p.context then some p else findIdentifierMatch userLower ps

/-- Numbered menu lines for candidate lists, one candidate per line. -/
def menuLines (start : Nat) : List Person → String
  | [] => ""
  | p :: ps =>
    let idf := extract_identifier p.context
    toString start ++ ". " ++ p.name
      ++ (if idf ≠ "" then ", " ++ pyReplace idf "from " "" else "") ++ "\n"
      ++ menuLines (start + 1) ps

/-- Modelled from the spec: `needs_confirmation` lives in the classifier
module absent from the sources; the specification fixes it as the test
`confidence ≤ threshold (0.6)`. -/
def needs_confirmation (confidence : Frac) : Bool := Frac.le confidence (Frac.mk 6 10)

/-! ## The message handler, phase by phase, in source order. -/

/-- Pending person-question handler, the first block of `handle_message`:
numeric selection (answer or range re-prompt), CONFIRM with a single
candidate, DENY, identifier-word selection, and otherwise fall-through
with the slot cleared. A left value is an early return; a right value is
the state for the following phases. -/
def pqPhase (orc : Oracle) (st : SessState) (u : String) : Sum StepOut SessState :=
  match st.pending_person_question with
  | none => .inr st
  | some pq =>
    if pyIsDigit u then
      let v := natOfDigits u
      if 1 ≤ v ∧ v ≤ pq.matchList.length then
        .inl ⟨{ st with pending_person_question := none },
              [orc.answerPeople pq.original_question [pq.matchList.getD (v - 1) default]], []⟩
      else .inl ⟨st, [pickNumberMsg pq.matchList.length], []⟩
    else
      let conf := parse_confirmation u
      if conf = "CONFIRM" ∧ pq.matchList.length = 1 then
        .inl ⟨{ st with pending_person_question := none },
              [orc.answerPeople pq.original_question [pq.matchList.getD 0 default]], []⟩
      else if conf = "DENY" then
        .inl ⟨{ st with pending_person_question := none }, ["Ok, nevermind."], []⟩
      else
        match findIdentifierMatch (pyLower u) pq.matchList with
        | some m =>
          .inl ⟨{ st with pending_person_question := none },
                [orc.answerPeople pq.original_question [m]], []⟩
        | none => .inr { st with pending_person_question := none }

/-- Actionable-query guard: the lowered message, possibly with trailing
question marks removed, is a trigger phrase. -/
def actionGuard (ul : String) : Bool :=
  actionPhrases.contains ul || actionPhrases.contains (pyRstrip ul ['?'])

/-- Actionable-query reply (data read and answer text are external). -/
def actionOut (orc : Oracle) (st : SessState) (u : String) : StepOut :=
  if orc.actionDataOk then ⟨st, [orc.answerAction u], []⟩
  else ⟨st, ["Could not fetch data."], []⟩

/-- Leading question phrases stripped when extracting a name. -/
def qStripWords : List String :=
  ["tell me about", "tell about", "what about", "who is", "who\x27s", "show me"]

/-- Name extraction from a person question: lower, strip, remove trailing
punctuation and one leading question phrase. -/
def stripLeadingQWords (s : String) : String :=
  match qStripWords.find? (fun sw => pyStartsWith s sw) with
  | some sw => pyStrip (String.mk (s.toList.drop sw.length))
  | none => s

/-- Person-question detection block: when the external detector flags a
question, either report an empty people table, ask which of several
same-named people is meant (creating the person-question pending), or
answer over all people. A none value means the block did not fire. -/
def qdetectPhase (orc : Oracle) (st : SessState) (u : String) : Option StepOut :=
  if orc.qIsQuestion then
    let query := orc.qQuery.getD u
    if orc.allPeople.isEmpty then
      some ⟨st, ["I don\x27t have any people saved yet."], []⟩
    else
      let queryLower := pyRstrip (pyStrip (pyLower query)) ['?', '!', '.']
      let extracted := stripLeadingQWords queryLower
      if extracted ≠ "" then
        let nameMatches := orc.allPeople.filter (fun p => pyLower p.name == pyLower extracted)
        if nameMatches.length > 1 then
          some ⟨{ st with pending_person_question := some ⟨query, nameMatches⟩ },
                ["Which " ++ (nameMatches.getD 0 default).name ++ "?\n" ++ menuLines 1 nameMatches],
                []⟩
        else some ⟨st, [orc.answerPeople query orc.allPeople], []⟩
      else some ⟨st, [orc.answerPeople query orc.allPeople], []⟩
  else none

/-- Caught-up digest message. -/
def caughtUpMsg : String :=
  "üìã Daily Digest\n\nNo pending actions. You\x27re all caught up! üéâ"

/-- Reply of the top command (digest generation and item formatting are
external). -/
def topOut (orc : Oracle) (st : SessState) (ul : String) : StepOut :=
  let req := pyStrip (pyReplace ul "top" "")
  match lookupStr TABLE_SHORTCUTS req with
  | some t =>
    if t = "all" then
      if orc.digestDataOk then
        if orc.digestEmpty then ⟨st, [caughtUpMsg], []⟩
        else
          match orc.digestText with
          | some d => ⟨st, [d], []⟩
          | none => ⟨st, ["‚ùå Could not generate digest."], []⟩
      else ⟨st, ["‚ùå Could not fetch data."], []⟩
    else ⟨st, [orc.topReply], []⟩
  | none =>
    ⟨st, ["‚ùå Unknown table. Use: top people / admin / interviews / ideas / linkedin / all"], []⟩

/-- Reply of the fix command; the store move is recorded as an effect. -/
def fixOut (orc : Oracle) (st : SessState) (ul : String) : StepOut :=
  let nb0 := pyStrip (pyReplace (pyReplace (pyReplace (pyReplace ul "fix:" "") "fix" "") "fx:" "") "fx" "")
  let nb := (lookupStr BUCKET_SHORTCUTS nb0).getD nb0
  if bucketTokens.contains nb then
    match st.last_message with
    | some last =>
      ⟨st,
       [if orc.fixOk then
          "‚úì Fixed. Moved from " ++ orc.fixOldBucket ++ " to " ++ pyCapitalize nb ++ "."
        else "‚ùå Could not find the entry to fix."],
       [Effect.fixEntry last.message_id nb]⟩
    | none => ⟨st, ["‚ùå No recent message to fix."], []⟩
  else
    ⟨st, ["‚ùå Invalid category. Use: fix people / fix ideas / fix interviews / fix things / fix linkedin"], []⟩

/-- Title selection `fields.get("name") or .get("idea") or .get("company")
or .get("task") or dflt`. -/
def titleFrom (fields : List (String × String)) (dflt : String) : String :=
  if fieldsGet fields "name" "" ≠ "" then fieldsGet fields "name" ""
  else if fieldsGet fields "idea" "" ≠ "" then fieldsGet fields "idea" ""
  else if fieldsGet fields "company" "" ≠ "" then fieldsGet fields "company" ""
  else if fieldsGet fields "task" "" ≠ "" then fieldsGet fields "task" ""
  else dflt

/-- Bucket-correction block: fires only when the lowered message is a
valid bucket token and a low-confidence pending exists; the bucket is
overridden, confidence forced to one, the entry saved, and the pending
slot deleted whether or not the save succeeded. -/
def bucketCorrPhase (orc : Oracle) (st : SessState) (ul : String) : Option StepOut :=
  if bucketTokens.contains ul then
    match st.pending_message with
    | some p =>
      let cls := { p.classification with bucket := ul, confidence := Frac.mk 1 1 }
      let eff := [Effect.saveEntry p.original_text cls p.message_id false]
      if orc.saveOk then
        some ⟨{ st with pending_message := none, last_message := some ⟨p.message_id, p.original_text, cls⟩ },
              ["‚úì Corrected and filed as: " ++ pyCapitalize ul ++ "\nTitle: "
                ++ titleFrom cls.fields "Item"], eff⟩
      else some ⟨{ st with pending_message := none }, [errSavingMsg], eff⟩
    | none => none
  else none

/-- Merge into one selected candidate: append effect, success or error
reply, pending merge slot deleted in both cases. -/
def mergeAppendOut (orc : Oracle) (st : SessState) (pm : PendingMerge) (sel : Person) : StepOut :=
  ⟨{ st with pending_merge := none },
   [if orc.appendOk then "Added to " ++ sel.name ++ "." else errUpdatingMsg],
   [Effect.appendToPerson sel.row_idx pm.original_text pm.classification.fields pm.message_id]⟩

/-- Merge-confirmation block: numeric selection, identifier selection,
then CONFIRM / DENY / OTHER via the confirmation parser. OTHER clears the
slot and falls through (right value) to fresh processing. -/
def mergePhase (orc : Oracle) (st : SessState) (u : String) : Sum StepOut SessState :=
  match st.pending_merge with
  | none => .inr st
  | some pm =>
    let allM := pm.all_matches
    if pyIsDigit u then
      let v := natOfDigits u
      if 1 ≤ v ∧ v ≤ allM.length then
        .inl (mergeAppendOut orc st pm (allM.getD (v - 1) default))
      else .inl ⟨st, [pickNumberMsg allM.length], []⟩
    else
      match findIdentifierMatch (pyLower u) allM with
      | some m => .inl (mergeAppendOut orc st pm m)
      | none =>
        let conf := parse_confirmation u
        if conf = "CONFIRM" then
          match pm.existing_person with
          | some ep => .inl (mergeAppendOut orc st pm ep)
          | none =>
            if allM.length = 1 then .inl (mergeAppendOut orc st pm (allM.getD 0 default))
            else .inl ⟨st, [pickOrIdentifierMsg], []⟩
        else if conf = "DENY" then
          .inl ⟨{ st with pending_merge := none },
                [if orc.saveOk then
                   "Got it, new " ++ fieldsGet pm.classification.fields "name" "" ++ " saved."
                 else errSavingMsg],
                [Effect.saveEntry pm.original_text pm.classification pm.message_id true]⟩
        else .inr { st with pending_merge := none }

/-- Low-confidence disambiguation prompt text. -/
def notSurePrompt (u : String) (cls : Classification) : String :=
  "ü§î Not sure about this one.\n\n"
    ++ "Message: \"" ++ pyTake u 50 ++ (if u.length > 50 then "..." else "") ++ "\"\n"
    ++ "My guess: " ++ pyCapitalize cls.bucket ++ " (" ++ toString cls.confidence.percent
    ++ "%)\n\n"
    ++ "Reply with the correct category:\n"
    ++ "‚Ä¢ people\n‚Ä¢ ideas\n‚Ä¢ interviews\n‚Ä¢ things\n‚Ä¢ linkedin"

/-- Single-candidate merge prompt text. -/
def samePrompt (similar : Person) : String :=
  let idf := extract_identifier similar.context
  if idf ≠ "" then
    "Same " ++ similar.name ++ "? (" ++ pyReplace idf "from " "" ++ ")"
  else "Same " ++ similar.name ++ "?"

/-- Success reply of the plain save path. -/
def saveReply (cls : Classification) : String :=
  let fields := cls.fields
  let title := titleFrom fields "Item"
  let mid :=
    if cls.bucket = "people" then
      title ++ (if fieldsGet fields "context" "" ≠ "" then ", " ++ fieldsGet fields "context" "" else "")
    else if cls.bucket = "things" then
      title ++ (if fieldsGet fields "due" "" ≠ "" then ", due: " ++ fieldsGet fields "due" "" else "")
    else if cls.bucket = "ideas" then
      title ++ (if fieldsGet fields "one_liner" "" ≠ "" then ", " ++ fieldsGet fields "one_liner" "" else "")
    else if cls.bucket = "interviews" then
      title ++ (if fieldsGet fields "role" "" ≠ "" then ", " ++ fieldsGet fields "role" "" else "")
    else title
  "Got it, saved to " ++ pyCapitalize cls.bucket ++ ".\n\n" ++ mid
    ++ "\n\nWrong? Just say: ideas, things, etc."

/-- Plain save path: record the save effect; on success also remember the
message for the fix command. -/
def saveFlow (orc : Oracle) (st : SessState) (u : String) (cls : Classification)
    (msgId : Nat) : StepOut :=
  if orc.saveOk then
    ⟨{ st with last_message := some ⟨msgId, u, cls⟩ }, [saveReply cls],
     [Effect.saveEntry u cls msgId false]⟩
  else ⟨st, [errSavingMsg], [Effect.saveEntry u cls msgId false]⟩

/-- Fresh-classification tail of `handle_message`: a low-confidence
result creates the bucket-correction pending; a high-confidence people
result with a name consults the similar-person search and creates a merge
pending on one or several candidates; everything else saves directly. -/
def classifyPhase (orc : Oracle) (st : SessState) (u : String) (msgId : Nat) : StepOut :=
  let cls := orc.classification
  if needs_confirmation cls.confidence then
    ⟨{ st with pending_message := some ⟨u, cls, msgId⟩ }, [notSurePrompt u cls], []⟩
  else if cls.bucket = "people" ∧ fieldsGet cls.fields "name" "" ≠ "" then
    match orc.similarMatches with
    | [] => saveFlow orc st u cls msgId
    | [similar] =>
      ⟨{ st with pending_merge := some ⟨u, cls, msgId, some similar, [similar]⟩ },
       [samePrompt similar], []⟩
    | sims =>
      ⟨{ st with pending_merge := some ⟨u, cls, msgId, none, sims⟩ },
       ["Which one?\n" ++ menuLines 1 sims ++ "\nOr say \x27new\x27 to create a new "
         ++ fieldsGet cls.fields "name" "" ++ "."], []⟩
  else saveFlow orc st u cls msgId

/-- Embedding of `handle_message` from `main.py`: the full per-message
dispatch, in source order — pending person question, actionable query,
person-question detection, top command, fix command, bucket correction,
merge confirmation, fresh classification. -/
def handleMessage (orc : Oracle) (st : SessState) (text : String) (msgId : Nat) : StepOut :=
  let u := pyStrip text
  let ul := pyLower u
  match pqPhase orc st u with
  | .inl out => out
  | .inr st1 =>
    if actionGuard ul then actionOut orc st1 u
    else
      match qdetectPhase orc st1 u with
      | some out => out
      | none =>
        if pyStartsWith ul "top" then topOut orc st1 ul
        else if pyStartsWith ul "fix" || pyStartsWith ul "fx" then fixOut orc st1 ul
        else
          match bucketCorrPhase orc st1 ul with
          | some out => out
          | none =>
            match mergePhase orc st1 u with
            | .inl out => out
            | .inr st2 => classifyPhase orc st2 u msgId

/-! ## Reachability of the pending handlers -/

/-- Guard bundle stating that a message reaches the bucket-correction and
merge blocks: no pending person question, the question detector did not
fire, and the message is not an actionable phrase, top command or fix
command. -/
def ReachesPending (orc : Oracle) (st : SessState) (text : String) : Prop :=
  st.pending_person_question = none ∧
  orc.qIsQuestion = false ∧
  actionGuard (pyLower (pyStrip text)) = false ∧
  pyStartsWith (pyLower (pyStrip text)) "top" = false ∧
  pyStartsWith (pyLower (pyStrip text)) "fix" = false ∧
  pyStartsWith (pyLower (pyStrip text)) "fx" = false

instance (orc : Oracle) (st : SessState) (text : String) :
    Decidable (ReachesPending orc st text) := by
  unfold ReachesPending; infer_instance

lemma handleMessage_reach (orc : Oracle) (st : SessState) (text : String) (msgId : Nat)
    (h : ReachesPending orc st text) :
    handleMessage orc st text msgId =
      (match bucketCorrPhase orc st (pyLower (pyStrip text)) with
       | some out => out
       | none =>
         match mergePhase orc st (pyStrip text) with
         | .inl out => out
         | .inr st2 => classifyPhase orc st2 (pyStrip text) msgId) := by
  obtain ⟨h1, h2, h3, h4, h5, h6⟩ := h
  have hpq : pqPhase orc st (pyStrip text) = .inr st := by
    unfold pqPhase; rw [h1]
  have hqd : qdetectPhase orc st (pyStrip text) = none := by
    unfold qdetectPhase; rw [h2]; simp
  simp only [handleMessage, hpq, h3, hqd, h4, h5, h6, Bool.false_eq_true, if_false,
    Bool.or_self]

lemma bucket_token_guards (ul : String) (h : bucketTokens.contains ul = true) :
    actionGuard ul = false ∧ pyStartsWith ul "top" = false ∧
    pyStartsWith ul "fix" = false ∧ pyStartsWith ul "fx" = false := by
  have hm : ul ∈ bucketTokens := by
    simpa using h
  fin_cases hm <;> exact ⟨by decide, by decide, by decide, by decide⟩

/-! ## Claim theorems -/

/-- C6: under a pending bucket correction, a reply whose trimmed
lower-cased form is a valid bucket token overrides the pending
classification's bucket to that token, forces its confidence to one,
saves the entry (shown here under a successful store write), clears the
pending slot and records the saved message, returning the session to
idle processing. -/
theorem bucket_correction_resolves (orc : Oracle) (st : SessState) (text : String)
    (msgId : Nat) (p : PendingMsg)
    (hppq : st.pending_person_question = none)
    (hq : orc.qIsQuestion = false)
    (hpm : st.pending_message = some p)
    (hbt : bucketTokens.contains (pyLower (pyStrip text)) = true)
    (hsave : orc.saveOk = true) :
    handleMessage orc st text msgId =
      ⟨{ st with pending_message := none, last_message := some ⟨p.message_id, p.original_text, { p.classification with bucket := pyLower (pyStrip text), confidence := Frac.mk 1 1 }⟩ },
       ["‚úì Corrected and filed as: " ++ pyCapitalize (pyLower (pyStrip text)) ++ "\nTitle: "
          ++ titleFrom p.classification.fields "Item"],
       [Effect.saveEntry p.original_text
          { p.classification with bucket := pyLower (pyStrip text), confidence := Frac.mk 1 1 }
          p.message_id false]⟩ := by
  obtain ⟨g1, g2, g3, g4⟩ := bucket_token_guards _ hbt
  rw [handleMessage_reach orc st text msgId ⟨hppq, hq, g1, g2, g3, g4⟩]
  unfold bucketCorrPhase
  rw [hbt, hpm, hsave]
  simp

/-- Witness for C6 at a concrete pending state and the reply Things. -/
theorem bucket_correction_resolves_witness :
    handleMessage
        { qIsQuestion := false, qQuery := none, allPeople := [], similarMatches := [],
          classification := ⟨"things", Frac.mk 9 10, []⟩, saveOk := true, appendOk := true,
          fixOk := true, fixOldBucket := "", answerPeople := fun _ _ => "", answerAction := fun _ => "",
          actionDataOk := true, digestDataOk := true, digestEmpty := false, digestText := none,
          topReply := "" }
        ⟨none, some ⟨"ping pong", ⟨"ideas", Frac.mk 4 10, [("task", "zzz")]⟩, 3⟩, none, none⟩
        " Things " 9 =
      ⟨⟨none, none, none, some ⟨3, "ping pong", ⟨"things", Frac.mk 1 1, [("task", "zzz")]⟩⟩⟩,
       ["‚úì Corrected and filed as: Things\nTitle: zzz"],
       [Effect.saveEntry "ping pong" ⟨"things", Frac.mk 1 1, [("task", "zzz")]⟩ 3 false]⟩ := by
  rw [bucket_correction_resolves _ _ _ _ ⟨"ping pong", ⟨"ideas", Frac.mk 4 10, [("task", "zzz")]⟩, 3⟩
    rfl rfl rfl (by decide) rfl]
  decide

/-- C10: under a pending merge decision with several candidates and no
preselected person, a CONFIRM reply neither merges nor abandons: the bot
asks for a number or an identifier, no store write happens, and the whole
session state, the pending merge slot included, is unchanged. -/
theorem merge_multi_confirm_reprompts (orc : Oracle) (st : SessState) (text : String)
    (msgId : Nat) (pm : PendingMerge)
    (hr : ReachesPending orc st text)
    (hbc : bucketTokens.contains (pyLower (pyStrip text)) = false)
    (hpm : st.pending_merge = some pm)
    (hex : pm.existing_person = none)
    (hlen : 1 < pm.all_matches.length)
    (hdig : pyIsDigit (pyStrip text) = false)
    (hid : findIdentifierMatch (pyLower (pyStrip text)) pm.all_matches = none)
    (hconf : parse_confirmation (pyStrip text) = "CONFIRM") :
    handleMessage orc st text msgId = ⟨st, [pickOrIdentifierMsg], []⟩ := by
  rw [handleMessage_reach orc st text msgId hr]
  have hb : bucketCorrPhase orc st (pyLower (pyStrip text)) = none := by
    unfold bucketCorrPhase; rw [hbc]; simp
  rw [hb]
  simp only [mergePhase, hpm, hdig, hid, hconf, hex, Bool.false_eq_true, if_false, reduceIte]
  rw [if_neg (by omega : ¬ pm.all_matches.length = 1)]

/-- Witness for C10: a CONFIRM reply with two same-named candidates and no
preselection leaves the pending merge untouched and asks for a choice. -/
theorem merge_multi_confirm_reprompts_witness :
    handleMessage
        { qIsQuestion := false, qQuery := none, allPeople := [], similarMatches := [],
          classification := ⟨"things", Frac.mk 9 10, []⟩, saveOk := true, appendOk := true,
          fixOk := true, fixOldBucket := "", answerPeople := fun _ _ => "", answerAction := fun _ => "",
          actionDataOk := true, digestDataOk := true, digestEmpty := false, digestText := none,
          topReply := "" }
        ⟨none, none, some ⟨"met Alex", ⟨"people", Frac.mk 9 10, [("name", "Alex")]⟩, 7, none,
          [⟨2, "Alex", "works at Google", "", "", ""⟩, ⟨5, "Alex", "your roommate", "", "", ""⟩]⟩, none⟩
        "yes" 9 =
      ⟨⟨none, none, some ⟨"met Alex", ⟨"people", Frac.mk 9 10, [("name", "Alex")]⟩, 7, none,
          [⟨2, "Alex", "works at Google", "", "", ""⟩, ⟨5, "Alex", "your roommate", "", "", ""⟩]⟩, none⟩,
       [pickOrIdentifierMsg], []⟩ := by
  rw [merge_multi_confirm_reprompts _ _ _ _
    ⟨"met Alex", ⟨"people", Frac.mk 9 10, [("name", "Alex")]⟩, 7, none,
      [⟨2, "Alex", "works at Google", "", "", ""⟩, ⟨5, "Alex", "your roommate", "", "", ""⟩]⟩
    (by decide) (by decide) rfl rfl (by decide) (by decide) (by decide) (by decide)]

/-- C8: under a pending merge decision or a pending person-question
selection, an all-digit reply whose value lies outside the candidate
range 1..N draws the range re-prompt, performs no store write, and leaves
the whole session state, the pending slot included, unchanged. -/
theorem out_of_range_selection_reprompts (orc : Oracle) (st : SessState) (text : String)
    (msgId : Nat) :
    (∀ pq : PendingPQ, st.pending_person_question = some pq →
       pyIsDigit (pyStrip text) = true →
       ¬ (1 ≤ natOfDigits (pyStrip text) ∧ natOfDigits (pyStrip text) ≤ pq.matchList.length) →
       handleMessage orc st text msgId = ⟨st, [pickNumberMsg pq.matchList.length], []⟩) ∧
    (∀ pm : PendingMerge, ReachesPending orc st text →
       bucketTokens.contains (pyLower (pyStrip text)) = false →
       st.pending_merge = some pm →
       pyIsDigit (pyStrip text) = true →
       ¬ (1 ≤ natOfDigits (pyStrip text) ∧ natOfDigits (pyStrip text) ≤ pm.all_matches.length) →
       handleMessage orc st text msgId = ⟨st, [pickNumberMsg pm.all_matches.length], []⟩) := by
  constructor
  · intro pq hpq hdig hrange
    have hstep : pqPhase orc st (pyStrip text) =
        .inl ⟨st, [pickNumberMsg pq.matchList.length], []⟩ := by
      simp only [pqPhase, hpq, hdig, reduceIte]
      rw [if_neg hrange]
    simp only [handleMessage, hstep]
  · intro pm hr hbc hpm hdig hrange
    rw [handleMessage_reach orc st text msgId hr]
    have hb : bucketCorrPhase orc st (pyLower (pyStrip text)) = none := by
      unfold bucketCorrPhase; rw [hbc]; simp
    rw [hb]
    simp only [mergePhase, hpm, hdig, reduceIte]
    rw [if_neg hrange]

/-- Witness for C8: the reply 3 with two candidates re-prompts in both
pending states. -/
theorem out_of_range_selection_reprompts_witness :
    (handleMessage
        { qIsQuestion := false, qQuery := none, allPeople := [], similarMatches := [],
          classification := ⟨"things", Frac.mk 9 10, []⟩, saveOk := true, appendOk := true,
          fixOk := true, fixOldBucket := "", answerPeople := fun _ _ => "", answerAction := fun _ => "",
          actionDataOk := true, digestDataOk := true, digestEmpty := false, digestText := none,
          topReply := "" }
        ⟨some ⟨"who is Alex", [⟨2, "Alex", "a", "", "", ""⟩, ⟨5, "Alex", "b", "", "", ""⟩]⟩, none, none, none⟩
        "3" 9 =
      ⟨⟨some ⟨"who is Alex", [⟨2, "Alex", "a", "", "", ""⟩, ⟨5, "Alex", "b", "", "", ""⟩]⟩, none, none, none⟩,
       [pickNumberMsg 2], []⟩) ∧
    (handleMessage
        { qIsQuestion := false, qQuery := none, allPeople := [], similarMatches := [],
          classification := ⟨"things", Frac.mk 9 10, []⟩, saveOk := true, appendOk := true,
          fixOk := true, fixOldBucket := "", answerPeople := fun _ _ => "", answerAction := fun _ => "",
          actionDataOk := true, digestDataOk := true, digestEmpty := false, digestText := none,
          topReply := "" }
        ⟨none, none, some ⟨"met Alex", ⟨"people", Frac.mk 9 10, [("name", "Alex")]⟩, 7, none,
          [⟨2, "Alex", "a", "", "", ""⟩, ⟨5, "Alex", "b", "", "", ""⟩]⟩, none⟩
        "3" 9 =
      ⟨⟨none, none, some ⟨"met Alex", ⟨"people", Frac.mk 9 10, [("name", "Alex")]⟩, 7, none,
          [⟨2, "Alex", "a", "", "", ""⟩, ⟨5, "Alex", "b", "", "", ""⟩]⟩, none⟩,
       [pickNumberMsg 2], []⟩) := by
  constructor
  · rw [(out_of_range_selection_reprompts _ _ "3" 9).1
      ⟨"who is Alex", [⟨2, "Alex", "a", "", "", ""⟩, ⟨5, "Alex", "b", "", "", ""⟩]⟩
      rfl (by decide) (by decide)]
    rfl
  · rw [(out_of_range_selection_reprompts _ _ "3" 9).2
      ⟨"met Alex", ⟨"people", Frac.mk 9 10, [("name", "Alex")]⟩, 7, none,
        [⟨2, "Alex", "a", "", "", ""⟩, ⟨5, "Alex", "b", "", "", ""⟩]⟩
      (by decide) (by decide) rfl (by decide) (by decide)]
    rfl

/-- C5: under a pending merge decision with exactly one candidate in play
(preselected, or a singleton candidate list), a CONFIRM reply appends to
that candidate's record and a DENY reply saves the message as a forced
brand-new record with no append effect; moreover the forced-new person
save never updates an existing row, whatever the sheet contents are, so
the duplicate search is bypassed. -/
theorem merge_single_candidate_confirm_deny (orc : Oracle) (st : SessState) (text : String)
    (msgId : Nat) (pm : PendingMerge) (p : Person)
    (hr : ReachesPending orc st text)
    (hbc : bucketTokens.contains (pyLower (pyStrip text)) = false)
    (hpm : st.pending_merge = some pm)
    (hone : pm.existing_person = some p ∨ (pm.existing_person = none ∧ pm.all_matches = [p]))
    (hdig : pyIsDigit (pyStrip text) = false)
    (hid : findIdentifierMatch (pyLower (pyStrip text)) pm.all_matches = none) :
    (parse_confirmation (pyStrip text) = "CONFIRM" →
      handleMessage orc st text msgId =
        ⟨{ st with pending_merge := none },
         [if orc.appendOk then "Added to " ++ p.name ++ "." else errUpdatingMsg],
         [Effect.appendToPerson p.row_idx pm.original_text pm.classification.fields pm.message_id]⟩) ∧
    (parse_confirmation (pyStrip text) = "DENY" →
      handleMessage orc st text msgId =
        ⟨{ st with pending_merge := none },
         [if orc.saveOk then
            "Got it, new " ++ fieldsGet pm.classification.fields "name" "" ++ " saved."
          else errSavingMsg],
         [Effect.saveEntry pm.original_text pm.classification pm.message_id true]⟩) ∧
    (∀ (rows : List (List String)) (fields : List (String × String)) (ts : String),
      pyStrip (fieldsGet fields "name" "") ≠ "" →
      save_or_update_person rows fields pm.original_text pm.message_id ts true =
        .created [pyStrip (fieldsGet fields "name" ""), fieldsGet fields "context" "",
                  "[" ++ pyTake ts 10 ++ "] " ++ pm.original_text,
                  fieldsGet fields "follow_ups" "", ts, toString pm.message_id, "TRUE"]) := by
  have hb : bucketCorrPhase orc st (pyLower (pyStrip text)) = none := by
    unfold bucketCorrPhase; rw [hbc]; simp
  refine ⟨?_, ?_, ?_⟩
  · intro hconf
    rw [handleMessage_reach orc st text msgId hr, hb]
    rcases hone with hex | ⟨hex, hall⟩
    · simp only [mergePhase, hpm, hdig, hid, hex, Bool.false_eq_true, if_false]
      rw [hconf]
      simp [mergeAppendOut]
    · have hid' : findIdentifierMatch (pyLower (pyStrip text)) [p] = none := by
        rw [← hall]; exact hid
      simp only [mergePhase, hpm, hdig, hall, hid', hex, Bool.false_eq_true, if_false]
      rw [hconf]
      simp [mergeAppendOut]
  · intro hconf
    rw [handleMessage_reach orc st text msgId hr, hb]
    simp only [mergePhase, hpm, hdig, hid, Bool.false_eq_true, if_false]
    rw [hconf]
    simp
  · intro rows fields ts hname
    unfold save_or_update_person
    rw [if_neg hname]
    rfl

/-- Witness for C5: CONFIRM merges into the preselected Alex, DENY forces
a new record, and the forced save creates a row even though an active
Alex row exists. -/
theorem merge_single_candidate_confirm_deny_witness :
    (handleMessage
        { qIsQuestion := false, qQuery := none, allPeople := [], similarMatches := [],
          classification := ⟨"things", Frac.mk 9 10, []⟩, saveOk := true, appendOk := true,
          fixOk := true, fixOldBucket := "", answerPeople := fun _ _ => "", answerAction := fun _ => "",
          actionDataOk := true, digestDataOk := true, digestEmpty := false, digestText := none,
          topReply := "" }
        ⟨none, none, some ⟨"met Alex", ⟨"people", Frac.mk 9 10, [("name", "Alex")]⟩, 7,
          some ⟨2, "Alex", "works at Google", "", "", ""⟩, [⟨2, "Alex", "works at Google", "", "", ""⟩]⟩, none⟩
        "yes" 9 =
      ⟨⟨none, none, none, none⟩, ["Added to Alex."],
       [Effect.appendToPerson 2 "met Alex" [("name", "Alex")] 7]⟩) ∧
    (handleMessage
        { qIsQuestion := false, qQuery := none, allPeople := [], similarMatches := [],
          classification := ⟨"things", Frac.mk 9 10, []⟩, saveOk := true, appendOk := true,
          fixOk := true, fixOldBucket := "", answerPeople := fun _ _ => "", answerAction := fun _ => "",
          actionDataOk := true, digestDataOk := true, digestEmpty := false, digestText := none,
          topReply := "" }
        ⟨none, none, some ⟨"met Alex", ⟨"people", Frac.mk 9 10, [("name", "Alex")]⟩, 7,
          some ⟨2, "Alex", "works at Google", "", "", ""⟩, [⟨2, "Alex", "works at Google", "", "", ""⟩]⟩, none⟩
        "no" 9 =
      ⟨⟨none, none, none, none⟩, ["Got it, new Alex saved."],
       [Effect.saveEntry "met Alex" ⟨"people", Frac.mk 9 10, [("name", "Alex")]⟩ 7 true]⟩) ∧
    (save_or_update_person [["Name"], ["Alex", "c", "n", "", "", "5", "TRUE"]]
        [("name", "Alex")] "met Alex" 7 "2024-05-06 07:08:09" true =
      .created ["Alex", "", "[2024-05-06] met Alex", "", "2024-05-06 07:08:09", "7", "TRUE"]) := by
  refine ⟨?_, ?_, ?_⟩
  · rw [(merge_single_candidate_confirm_deny _ _ "yes" 9
      ⟨"met Alex", ⟨"people", Frac.mk 9 10, [("name", "Alex")]⟩, 7,
        some ⟨2, "Alex", "works at Google", "", "", ""⟩, [⟨2, "Alex", "works at Google", "", "", ""⟩]⟩
      ⟨2, "Alex", "works at Google", "", "", ""⟩
      (by decide) (by decide) rfl (Or.inl rfl) (by decide) (by decide)).1 (by decide)]
    rfl
  · rw [(merge_single_candidate_confirm_deny _ _ "no" 9
      ⟨"met Alex", ⟨"people", Frac.mk 9 10, [("name", "Alex")]⟩, 7,
        some ⟨2, "Alex", "works at Google", "", "", ""⟩, [⟨2, "Alex", "works at Google", "", "", ""⟩]⟩
      ⟨2, "Alex", "works at Google", "", "", ""⟩
      (by decide) (by decide) rfl (Or.inl rfl) (by decide) (by decide)).2.1 (by decide)]
    rfl
  · rw [(merge_single_candidate_confirm_deny
      { qIsQuestion := false, qQuery := none, allPeople := [], similarMatches := [],
        classification := ⟨"things", Frac.mk 9 10, []⟩, saveOk := true, appendOk := true,
        fixOk := true, fixOldBucket := "", answerPeople := fun _ _ => "", answerAction := fun _ => "",
        actionDataOk := true, digestDataOk := true, digestEmpty := false, digestText := none,
        topReply := "" }
      ⟨none, none, some ⟨"met Alex", ⟨"people", Frac.mk 9 10, [("name", "Alex")]⟩, 7,
        some ⟨2, "Alex", "works at Google", "", "", ""⟩, [⟨2, "Alex", "works at Google", "", "", ""⟩]⟩, none⟩
      "no" 9
      ⟨"met Alex", ⟨"people", Frac.mk 9 10, [("name", "Alex")]⟩, 7,
        some ⟨2, "Alex", "works at Google", "", "", ""⟩, [⟨2, "Alex", "works at Google", "", "", ""⟩]⟩
      ⟨2, "Alex", "works at Google", "", "", ""⟩
      (by decide) (by decide) rfl (Or.inl rfl) (by decide) (by decide)).2.2
      [["Name"], ["Alex", "c", "n", "", "", "5", "TRUE"]] [("name", "Alex")]
      "2024-05-06 07:08:09" (by decide)]
    rfl

/-- C1 counterexample: with a pending merge holding one Alex candidate, a
valid numeric selection whose store append fails produces the generic
update-error reply, yet the pending merge slot is deleted rather than
left untouched — the state ends with no pending interaction at all, so
the confirmation cannot be retried. -/
theorem store_failure_clears_pending_cex :
    handleMessage
        { qIsQuestion := false, qQuery := none, allPeople := [], similarMatches := [],
          classification := ⟨"things", Frac.mk 9 10, []⟩, saveOk := true, appendOk := false,
          fixOk := true, fixOldBucket := "", answerPeople := fun _ _ => "", answerAction := fun _ => "",
          actionDataOk := true, digestDataOk := true, digestEmpty := false, digestText := none,
          topReply := "" }
        ⟨none, none, some ⟨"met Alex", ⟨"people", Frac.mk 9 10, [("name", "Alex")]⟩, 7,
          some ⟨2, "Alex", "works at Google", "", "", ""⟩, [⟨2, "Alex", "works at Google", "", "", ""⟩]⟩, none⟩
        "1" 9 =
      ⟨⟨none, none, none, none⟩, [errUpdatingMsg],
       [Effect.appendToPerson 2 "met Alex" [("name", "Alex")] 7]⟩ := by
  decide

/-- C1 amended: when a store write fails while resolving a pending
interaction — numeric merge selection, merge confirmation, merge denial,
or bucket correction — the failure is reported as the generic
saving/updating error, but the pending slot is cleared rather than
preserved, so the user cannot retry the same confirmation. -/
theorem store_failure_reports_error_and_clears_slot (orc : Oracle) (st : SessState)
    (text : String) (msgId : Nat) :
    (∀ pm : PendingMerge, ReachesPending orc st text →
       bucketTokens.contains (pyLower (pyStrip text)) = false →
       st.pending_merge = some pm →
       pyIsDigit (pyStrip text) = true →
       1 ≤ natOfDigits (pyStrip text) → natOfDigits (pyStrip text) ≤ pm.all_matches.length →
       orc.appendOk = false →
       handleMessage orc st text msgId =
         ⟨{ st with pending_merge := none }, [errUpdatingMsg],
          [Effect.appendToPerson
             (pm.all_matches.getD (natOfDigits (pyStrip text) - 1) default).row_idx
             pm.original_text pm.classification.fields pm.message_id]⟩) ∧
    (∀ (pm : PendingMerge) (p : Person), ReachesPending orc st text →
       bucketTokens.contains (pyLower (pyStrip text)) = false →
       st.pending_merge = some pm →
       (pm.existing_person = some p ∨ (pm.existing_person = none ∧ pm.all_matches = [p])) →
       pyIsDigit (pyStrip text) = false →
       findIdentifierMatch (pyLower (pyStrip text)) pm.all_matches = none →
       parse_confirmation (pyStrip text) = "CONFIRM" →
       orc.appendOk = false →
       handleMessage orc st text msgId =
         ⟨{ st with pending_merge := none }, [errUpdatingMsg],
          [Effect.appendToPerson p.row_idx pm.original_text pm.classification.fields
             pm.message_id]⟩) ∧
    (∀ pm : PendingMerge, ReachesPending orc st text →
       bucketTokens.contains (pyLower (pyStrip text)) = false →
       st.pending_merge = some pm →
       pyIsDigit (pyStrip text) = false →
       findIdentifierMatch (pyLower (pyStrip text)) pm.all_matches = none →
       parse_confirmation (pyStrip text) = "DENY" →
       orc.saveOk = false →
       handleMessage orc st text msgId =
         ⟨{ st with pending_merge := none }, [errSavingMsg],
          [Effect.saveEntry pm.original_text pm.classification pm.message_id true]⟩) ∧
    (∀ p : PendingMsg, st.pending_person_question = none → orc.qIsQuestion = false →
       st.pending_message = some p →
       bucketTokens.contains (pyLower (pyStrip text)) = true →
       orc.saveOk = false →
       handleMessage orc st text msgId =
         ⟨{ st with pending_message := none }, [errSavingMsg],
          [Effect.saveEntry p.original_text
             { p.classification with bucket := pyLower (pyStrip text), confidence := Frac.mk 1 1 }
             p.message_id false]⟩) := by
  refine ⟨?_, ?_, ?_, ?_⟩
  · intro pm hr hbc hpm hdig h1 h2 happ
    rw [handleMessage_reach orc st text msgId hr]
    have hb : bucketCorrPhase orc st (pyLower (pyStrip text)) = none := by
      unfold bucketCorrPhase; rw [hbc]; simp
    rw [hb]
    simp only [mergePhase, hpm, hdig, reduceIte]
    rw [if_pos ⟨h1, h2⟩]
    simp [mergeAppendOut, happ]
  · intro pm p hr hbc hpm hone hdig hid hconf happ
    rw [handleMessage_reach orc st text msgId hr]
    have hb : bucketCorrPhase orc st (pyLower (pyStrip text)) = none := by
      unfold bucketCorrPhase; rw [hbc]; simp
    rw [hb]
    rcases hone with hex | ⟨hex, hall⟩
    · simp only [mergePhase, hpm, hdig, hid, hex, Bool.false_eq_true, if_false]
      rw [hconf]
      simp [mergeAppendOut, happ]
    · have hid' : findIdentifierMatch (pyLower (pyStrip text)) [p] = none := by
        rw [← hall]; exact hid
      simp only [mergePhase, hpm, hdig, hall, hid', hex, Bool.false_eq_true, if_false]
      rw [hconf]
      simp [mergeAppendOut, happ]
  · intro pm hr hbc hpm hdig hid hconf hsave
    rw [handleMessage_reach orc st text msgId hr]
    have hb : bucketCorrPhase orc st (pyLower (pyStrip text)) = none := by
      unfold bucketCorrPhase; rw [hbc]; simp
    rw [hb]
    simp only [mergePhase, hpm, hdig, hid, Bool.false_eq_true, if_false]
    rw [hconf]
    simp [hsave]
  · intro p hppq hq hpm hbt hsave
    obtain ⟨g1, g2, g3, g4⟩ := bucket_token_guards _ hbt
    rw [handleMessage_reach orc st text msgId ⟨hppq, hq, g1, g2, g3, g4⟩]
    unfold bucketCorrPhase
    rw [hbt, hpm, hsave]
    simp

/-- Witness for the amended C1 at the four failure paths. -/
theorem store_failure_reports_error_and_clears_slot_witness :
    (handleMessage
        { qIsQuestion := false, qQuery := none, allPeople := [], similarMatches := [],
          classification := ⟨"things", Frac.mk 9 10, []⟩, saveOk := false, appendOk := false,
          fixOk := true, fixOldBucket := "", answerPeople := fun _ _ => "", answerAction := fun _ => "",
          actionDataOk := true, digestDataOk := true, digestEmpty := false, digestText := none,
          topReply := "" }
        ⟨none, none, some ⟨"met Alex", ⟨"people", Frac.mk 9 10, [("name", "Alex")]⟩, 7,
          some ⟨2, "Alex", "x", "", "", ""⟩, [⟨2, "Alex", "x", "", "", ""⟩]⟩, none⟩
        "1" 9 =
      ⟨⟨none, none, none, none⟩, [errUpdatingMsg],
       [Effect.appendToPerson 2 "met Alex" [("name", "Alex")] 7]⟩) ∧
    (handleMessage
        { qIsQuestion := false, qQuery := none, allPeople := [], similarMatches := [],
          classification := ⟨"things", Frac.mk 9 10, []⟩, saveOk := false, appendOk := false,
          fixOk := true, fixOldBucket := "", answerPeople := fun _ _ => "", answerAction := fun _ => "",
          actionDataOk := true, digestDataOk := true, digestEmpty := false, digestText := none,
          topReply := "" }
        ⟨none, none, some ⟨"met Alex", ⟨"people", Frac.mk 9 10, [("name", "Alex")]⟩, 7,
          some ⟨2, "Alex", "x", "", "", ""⟩, [⟨2, "Alex", "x", "", "", ""⟩]⟩, none⟩
        "yes" 9 =
      ⟨⟨none, none, none, none⟩, [errUpdatingMsg],
       [Effect.appendToPerson 2 "met Alex" [("name", "Alex")] 7]⟩) ∧
    (handleMessage
        { qIsQuestion := false, qQuery := none, allPeople := [], similarMatches := [],
          classification := ⟨"things", Frac.mk 9 10, []⟩, saveOk := false, appendOk := false,
          fixOk := true, fixOldBucket := "", answerPeople := fun _ _ => "", answerAction := fun _ => "",
          actionDataOk := true, digestDataOk := true, digestEmpty := false, digestText := none,
          topReply := "" }
        ⟨none, none, some ⟨"met Alex", ⟨"people", Frac.mk 9 10, [("name", "Alex")]⟩, 7,
          some ⟨2, "Alex", "x", "", "", ""⟩, [⟨2, "Alex", "x", "", "", ""⟩]⟩, none⟩
        "no" 9 =
      ⟨⟨none, none, none, none⟩, [errSavingMsg],
       [Effect.saveEntry "met Alex" ⟨"people", Frac.mk 9 10, [("name", "Alex")]⟩ 7 true]⟩) ∧
    (handleMessage
        { qIsQuestion := false, qQuery := none, allPeople := [], similarMatches := [],
          classification := ⟨"things", Frac.mk 9 10, []⟩, saveOk := false, appendOk := false,
          fixOk := true, fixOldBucket := "", answerPeople := fun _ _ => "", answerAction := fun _ => "",
          actionDataOk := true, digestDataOk := true, digestEmpty := false, digestText := none,
          topReply := "" }
        ⟨none, some ⟨"ping pong", ⟨"ideas", Frac.mk 4 10, [("task", "zzz")]⟩, 3⟩, none, none⟩
        "things" 9 =
      ⟨⟨none, none, none, none⟩, [errSavingMsg],
       [Effect.saveEntry "ping pong" ⟨"things", Frac.mk 1 1, [("task", "zzz")]⟩ 3 false]⟩) := by
  refine ⟨?_, ?_, ?_, ?_⟩
  · rw [(store_failure_reports_error_and_clears_slot _ _ "1" 9).1
      ⟨"met Alex", ⟨"people", Frac.mk 9 10, [("name", "Alex")]⟩, 7,
        some ⟨2, "Alex", "x", "", "", ""⟩, [⟨2, "Alex", "x", "", "", ""⟩]⟩
      (by decide) (by decide) rfl (by decide) (by decide) (by decide) rfl]
    rfl
  · rw [(store_failure_reports_error_and_clears_slot _ _ "yes" 9).2.1
      ⟨"met Alex", ⟨"people", Frac.mk 9 10, [("name", "Alex")]⟩, 7,
        some ⟨2, "Alex", "x", "", "", ""⟩, [⟨2, "Alex", "x", "", "", ""⟩]⟩
      ⟨2, "Alex", "x", "", "", ""⟩
      (by decide) (by decide) rfl (Or.inl rfl) (by decide) (by decide) (by decide) rfl]
  · rw [(store_failure_reports_error_and_clears_slot _ _ "no" 9).2.2.1
      ⟨"met Alex", ⟨"people", Frac.mk 9 10, [("name", "Alex")]⟩, 7,
        some ⟨2, "Alex", "x", "", "", ""⟩, [⟨2, "Alex", "x", "", "", ""⟩]⟩
      (by decide) (by decide) rfl (by decide) (by decide) (by decide) rfl]
  · rw [(store_failure_reports_error_and_clears_slot _ _ "things" 9).2.2.2
      ⟨"ping pong", ⟨"ideas", Frac.mk 4 10, [("task", "zzz")]⟩, 3⟩
      rfl rfl rfl (by decide) rfl]
    rfl

/-- C4 counterexample: under a pending bucket correction, the
unrecognized reply banana is classified and saved as a fresh message,
but the pending slot is not discarded — it still holds the original
pending correction afterwards, so the slot survives instead of being
abandoned. -/
theorem unrecognized_reply_keeps_slot_cex :
    handleMessage
        { qIsQuestion := false, qQuery := none, allPeople := [], similarMatches := [],
          classification := ⟨"things", Frac.mk 9 10, [("task", "banana")]⟩, saveOk := true,
          appendOk := true, fixOk := true, fixOldBucket := "", answerPeople := fun _ _ => "",
          answerAction := fun _ => "", actionDataOk := true, digestDataOk := true,
          digestEmpty := false, digestText := none, topReply := "" }
        ⟨none, some ⟨"ping pong", ⟨"ideas", Frac.mk 4 10, [("task", "zzz")]⟩, 3⟩, none, none⟩
        "banana" 9 =
      ⟨⟨none, some ⟨"ping pong", ⟨"ideas", Frac.mk 4 10, [("task", "zzz")]⟩, 3⟩, none,
         some ⟨9, "banana", ⟨"things", Frac.mk 9 10, [("task", "banana")]⟩⟩⟩,
       [saveReply ⟨"things", Frac.mk 9 10, [("task", "banana")]⟩],
       [Effect.saveEntry "banana" ⟨"things", Frac.mk 9 10, [("task", "banana")]⟩ 9 false]⟩ := by
  decide

/-- C4 amended: under a pending bucket correction, a reply that does not
match a bucket token is processed as a fresh incoming message exactly as
from an idle session (same replies, same store writes), but the pending
slot is not discarded: it still holds the original pending correction
unless the fresh classification itself is low-confidence and overwrites
it. -/
theorem unrecognized_reply_processes_fresh (orc : Oracle) (st : SessState) (text : String)
    (msgId : Nat) (p : PendingMsg)
    (hr : ReachesPending orc st text)
    (hnb : bucketTokens.contains (pyLower (pyStrip text)) = false)
    (hpm : st.pending_message = some p)
    (hmg : st.pending_merge = none) :
    (handleMessage orc st text msgId).replies =
      (handleMessage orc { st with pending_message := none } text msgId).replies ∧
    (handleMessage orc st text msgId).effects =
      (handleMessage orc { st with pending_message := none } text msgId).effects ∧
    ((handleMessage orc st text msgId).state.pending_message = some p ∨
     (handleMessage orc st text msgId).state.pending_message =
       some ⟨pyStrip text, orc.classification, msgId⟩) := by
  obtain ⟨s1, s2, s3, s4⟩ := st
  obtain ⟨h1, h2, h3, h4, h5, h6⟩ := hr
  simp only at hpm hmg h1
  subst hpm hmg h1
  have hb : ∀ s : SessState, bucketCorrPhase orc s (pyLower (pyStrip text)) = none := by
    intro s; unfold bucketCorrPhase; rw [hnb]; simp
  rw [handleMessage_reach orc _ text msgId ⟨rfl, h2, h3, h4, h5, h6⟩,
      handleMessage_reach orc _ text msgId ⟨rfl, h2, h3, h4, h5, h6⟩, hb, hb]
  simp only [mergePhase]
  unfold classifyPhase saveFlow
  cases hnc : needs_confirmation orc.classification.confidence
  · by_cases hpb : orc.classification.bucket = "people"
    · by_cases hpn : fieldsGet orc.classification.fields "name" "" = ""
      · cases hsv : orc.saveOk <;> simp [hnc, hpb, hpn, hsv]
      · cases horc : orc.similarMatches with
        | nil => cases hsv : orc.saveOk <;> simp [hnc, hpb, hpn, hsv]
        | cons a tl =>
          cases tl with
          | nil => simp [hnc, hpb, hpn]
          | cons b tl2 => simp [hnc, hpb, hpn]
    · cases hsv : orc.saveOk <;> simp [hnc, hpb, hsv]
  · simp [hnc]

/-- Witness for the amended C4 at the banana scenario. -/
theorem unrecognized_reply_processes_fresh_witness :
    (handleMessage
        { qIsQuestion := false, qQuery := none, allPeople := [], similarMatches := [],
          classification := ⟨"things", Frac.mk 9 10, [("task", "banana")]⟩, saveOk := true,
          appendOk := true, fixOk := true, fixOldBucket := "", answerPeople := fun _ _ => "",
          answerAction := fun _ => "", actionDataOk := true, digestDataOk := true,
          digestEmpty := false, digestText := none, topReply := "" }
        ⟨none, some ⟨"ping pong", ⟨"ideas", Frac.mk 4 10, [("task", "zzz")]⟩, 3⟩, none, none⟩
        "banana" 9).replies =
      (handleMessage
        { qIsQuestion := false, qQuery := none, allPeople := [], similarMatches := [],
          classification := ⟨"things", Frac.mk 9 10, [("task", "banana")]⟩, saveOk := true,
          appendOk := true, fixOk := true, fixOldBucket := "", answerPeople := fun _ _ => "",
          answerAction := fun _ => "", actionDataOk := true, digestDataOk := true,
          digestEmpty := false, digestText := none, topReply := "" }
        ⟨none, none, none, none⟩ "banana" 9).replies ∧
    (handleMessage
        { qIsQuestion := false, qQuery := none, allPeople := [], similarMatches := [],
          classification := ⟨"things", Frac.mk 9 10, [("task", "banana")]⟩, saveOk := true,
          appendOk := true, fixOk := true, fixOldBucket := "", answerPeople := fun _ _ => "",
          answerAction := fun _ => "", actionDataOk := true, digestDataOk := true,
          digestEmpty := false, digestText := none, topReply := "" }
        ⟨none, some ⟨"ping pong", ⟨"ideas", Frac.mk 4 10, [("task", "zzz")]⟩, 3⟩, none, none⟩
        "banana" 9).effects =
      (handleMessage
        { qIsQuestion := false, qQuery := none, allPeople := [], similarMatches := [],
          classification := ⟨"things", Frac.mk 9 10, [("task", "banana")]⟩, saveOk := true,
          appendOk := true, fixOk := true, fixOldBucket := "", answerPeople := fun _ _ => "",
          answerAction := fun _ => "", actionDataOk := true, digestDataOk := true,
          digestEmpty := false, digestText := none, topReply := "" }
        ⟨none, none, none, none⟩ "banana" 9).effects ∧
    ((handleMessage
        { qIsQuestion := false, qQuery := none, allPeople := [], similarMatches := [],
          classification := ⟨"things", Frac.mk 9 10, [("task", "banana")]⟩, saveOk := true,
          appendOk := true, fixOk := true, fixOldBucket := "", answerPeople := fun _ _ => "",
          answerAction := fun _ => "", actionDataOk := true, digestDataOk := true,
          digestEmpty := false, digestText := none, topReply := "" }
        ⟨none, some ⟨"ping pong", ⟨"ideas", Frac.mk 4 10, [("task", "zzz")]⟩, 3⟩, none, none⟩
        "banana" 9).state.pending_message =
        some ⟨"ping pong", ⟨"ideas", Frac.mk 4 10, [("task", "zzz")]⟩, 3⟩ ∨
     (handleMessage
        { qIsQuestion := false, qQuery := none, allPeople := [], similarMatches := [],
          classification := ⟨"things", Frac.mk 9 10, [("task", "banana")]⟩, saveOk := true,
          appendOk := true, fixOk := true, fixOldBucket := "", answerPeople := fun _ _ => "",
          answerAction := fun _ => "", actionDataOk := true, digestDataOk := true,
          digestEmpty := false, digestText := none, topReply := "" }
        ⟨none, some ⟨"ping pong", ⟨"ideas", Frac.mk 4 10, [("task", "zzz")]⟩, 3⟩, none, none⟩
        "banana" 9).state.pending_message =
        some ⟨"banana", ⟨"things", Frac.mk 9 10, [("task", "banana")]⟩, 9⟩) := by
  exact unrecognized_reply_processes_fresh _ _ "banana" 9
    ⟨"ping pong", ⟨"ideas", Frac.mk 4 10, [("task", "zzz")]⟩, 3⟩
    (by decide) (by decide) rfl rfl

/-- C3 counterexample: starting from the idle session, a low-confidence
message creates a bucket-correction pending, and the next message — a
high-confidence people mention with one similar candidate — creates a
merge pending without discarding the first: the reachable state after two
messages holds two pending interactions at once. -/
theorem single_pending_invariant_cex :
    ((handleMessage
        { qIsQuestion := false, qQuery := none, allPeople := [], similarMatches := [⟨2, "Alex", "x", "", "", ""⟩],
          classification := ⟨"people", Frac.mk 9 10, [("name", "Alex")]⟩, saveOk := true,
          appendOk := true, fixOk := true, fixOldBucket := "", answerPeople := fun _ _ => "",
          answerAction := fun _ => "", actionDataOk := true, digestDataOk := true,
          digestEmpty := false, digestText := none, topReply := "" }
        (handleMessage
          { qIsQuestion := false, qQuery := none, allPeople := [], similarMatches := [],
            classification := ⟨"things", Frac.mk 4 10, [("task", "zzz")]⟩, saveOk := true,
            appendOk := true, fixOk := true, fixOldBucket := "", answerPeople := fun _ _ => "",
            answerAction := fun _ => "", actionDataOk := true, digestDataOk := true,
            digestEmpty := false, digestText := none, topReply := "" }
          SessState.idle "ping pong" 3).state
        "met Alex at gym" 4).state.pending_message).isSome = true ∧
    ((handleMessage
        { qIsQuestion := false, qQuery := none, allPeople := [], similarMatches := [⟨2, "Alex", "x", "", "", ""⟩],
          classification := ⟨"people", Frac.mk 9 10, [("name", "Alex")]⟩, saveOk := true,
          appendOk := true, fixOk := true, fixOldBucket := "", answerPeople := fun _ _ => "",
          answerAction := fun _ => "", actionDataOk := true, digestDataOk := true,
          digestEmpty := false, digestText := none, topReply := "" }
        (handleMessage
          { qIsQuestion := false, qQuery := none, allPeople := [], similarMatches := [],
            classification := ⟨"things", Frac.mk 4 10, [("task", "zzz")]⟩, saveOk := true,
            appendOk := true, fixOk := true, fixOldBucket := "", answerPeople := fun _ _ => "",
            answerAction := fun _ => "", actionDataOk := true, digestDataOk := true,
            digestEmpty := false, digestText := none, topReply := "" }
          SessState.idle "ping pong" 3).state
        "met Alex at gym" 4).state.pending_merge).isSome = true := by
  decide

/-- Number of pending interactions a session holds, over the three
variants. -/
def pendingCount (st : SessState) : Nat :=
  (if st.pending_person_question.isSome then 1 else 0) +
  (if st.pending_message.isSome then 1 else 0) +
  (if st.pending_merge.isSome then 1 else 0)

lemma pqPhase_count_inl (orc : Oracle) (st : SessState) (u : String) (out : StepOut)
    (h : pqPhase orc st u = .inl out) : pendingCount out.state ≤ pendingCount st := by
  obtain ⟨a, b, c, d⟩ := st
  cases a <;> unfold pqPhase at h <;> simp only [] at h <;> repeat' split at h
  all_goals first
    | (cases h; simp [pendingCount])
    | cases h

lemma pqPhase_count_inr (orc : Oracle) (st : SessState) (u : String) (st1 : SessState)
    (h : pqPhase orc st u = .inr st1) : pendingCount st1 ≤ pendingCount st := by
  obtain ⟨a, b, c, d⟩ := st
  cases a <;> unfold pqPhase at h <;> simp only [] at h <;> repeat' split at h
  all_goals first
    | (cases h; simp [pendingCount])
    | cases h

lemma qdetectPhase_count (orc : Oracle) (st : SessState) (u : String) (out : StepOut)
    (h : qdetectPhase orc st u = some out) : pendingCount out.state ≤ pendingCount st + 1 := by
  obtain ⟨a, b, c, d⟩ := st
  unfold qdetectPhase at h
  simp only [] at h
  repeat' split at h
  all_goals first
    | (cases h; simp [pendingCount]; all_goals (split_ifs <;> omega))
    | cases h

lemma actionOut_count (orc : Oracle) (st : SessState) (u : String) :
    pendingCount (actionOut orc st u).state ≤ pendingCount st := by
  unfold actionOut; split <;> simp

lemma topOut_count (orc : Oracle) (st : SessState) (ul : String) :
    pendingCount (topOut orc st ul).state ≤ pendingCount st := by
  unfold topOut; simp only []; repeat' split
  all_goals simp

lemma fixOut_count (orc : Oracle) (st : SessState) (ul : String) :
    pendingCount (fixOut orc st ul).state ≤ pendingCount st := by
  unfold fixOut; simp only []; repeat' split
  all_goals simp

lemma bucketCorrPhase_count (orc : Oracle) (st : SessState) (ul : String) (out : StepOut)
    (h : bucketCorrPhase orc st ul = some out) : pendingCount out.state ≤ pendingCount st := by
  obtain ⟨a, b, c, d⟩ := st
  unfold bucketCorrPhase at h
  simp only [] at h
  repeat' split at h
  all_goals first
    | (cases h; simp [pendingCount])
    | cases h

lemma mergePhase_count_inl (orc : Oracle) (st : SessState) (u : String) (out : StepOut)
    (h : mergePhase orc st u = .inl out) : pendingCount out.state ≤ pendingCount st := by
  obtain ⟨a, b, c, d⟩ := st
  unfold mergePhase mergeAppendOut at h
  simp only [] at h
  repeat' split at h
  all_goals first
    | (cases h; simp [pendingCount])
    | cases h

lemma mergePhase_count_inr (orc : Oracle) (st : SessState) (u : String) (st2 : SessState)
    (h : mergePhase orc st u = .inr st2) : pendingCount st2 ≤ pendingCount st := by
  obtain ⟨a, b, c, d⟩ := st
  unfold mergePhase mergeAppendOut at h
  simp only [] at h
  repeat' split at h
  all_goals first
    | (cases h; simp [pendingCount])
    | cases h

lemma classifyPhase_count (orc : Oracle) (st : SessState) (u : String) (msgId : Nat) :
    pendingCount (classifyPhase orc st u msgId).state ≤ pendingCount st + 1 := by
  obtain ⟨a, b, c, d⟩ := st
  unfold classifyPhase saveFlow
  simp only []
  repeat' split
  all_goals simp [pendingCount]
  all_goals (split_ifs <;> omega)

/-- C3 amended: each slot holds at most one pending interaction of its
variant, but the variants are independent, so a message can add a new
pending without discarding a different-variant one; what does hold at
every reachable point is that one message creates at most one new pending
interaction — the total number of pending interactions grows by at most
one per message. -/
theorem pending_growth_per_message (orc : Oracle) (st : SessState) (text : String)
    (msgId : Nat) :
    pendingCount (handleMessage orc st text msgId).state ≤ pendingCount st + 1 := by
  unfold handleMessage
  simp only []
  cases hpq : pqPhase orc st (pyStrip text) with
  | inl out =>
    exact Nat.le_trans (pqPhase_count_inl orc st (pyStrip text) out hpq) (Nat.le_succ _)
  | inr st1 =>
    have h1 := pqPhase_count_inr orc st (pyStrip text) st1 hpq
    cases hag : actionGuard (pyLower (pyStrip text)) with
    | true =>
      simp only [hag, reduceIte]
      exact Nat.le_trans (Nat.le_trans (actionOut_count orc st1 (pyStrip text)) h1)
        (Nat.le_succ _)
    | false =>
      simp only [hag, Bool.false_eq_true, if_false]
      cases hqd : qdetectPhase orc st1 (pyStrip text) with
      | some out =>
        simp only [hqd]
        exact Nat.le_trans (qdetectPhase_count orc st1 (pyStrip text) out hqd)
          (Nat.add_le_add_right h1 1)
      | none =>
        simp only [hqd]
        cases htop : pyStartsWith (pyLower (pyStrip text)) "top" with
        | true =>
          simp only [htop, reduceIte]
          exact Nat.le_trans (Nat.le_trans (topOut_count orc st1 _) h1) (Nat.le_succ _)
        | false =>
          simp only [htop, Bool.false_eq_true, if_false]
          cases hfix : (pyStartsWith (pyLower (pyStrip text)) "fix"
              || pyStartsWith (pyLower (pyStrip text)) "fx") with
          | true =>
            simp only [hfix, reduceIte]
            exact Nat.le_trans (Nat.le_trans (fixOut_count orc st1 _) h1) (Nat.le_succ _)
          | false =>
            simp only [hfix, Bool.false_eq_true, if_false]
            cases hbc : bucketCorrPhase orc st1 (pyLower (pyStrip text)) with
            | some out =>
              simp only [hbc]
              exact Nat.le_trans (Nat.le_trans
                (bucketCorrPhase_count orc st1 _ out hbc) h1) (Nat.le_succ _)
            | none =>
              simp only [hbc]
              cases hm : mergePhase orc st1 (pyStrip text) with
              | inl out =>
                simp only [hm]
                exact Nat.le_trans (Nat.le_trans
                  (mergePhase_count_inl orc st1 _ out hm) h1) (Nat.le_succ _)
              | inr st2 =>
                simp only [hm]
                exact Nat.le_trans (classifyPhase_count orc st2 (pyStrip text) msgId)
                  (Nat.add_le_add_right
                    (Nat.le_trans (mergePhase_count_inr orc st1 _ st2 hm) h1) 1)

/-- C7: any reply whose lower-cased trimmed form is verbatim in the
affirmative lexicon parses as CONFIRM; any reply verbatim in the negative
lexicon parses as DENY; and any reply matching neither lexicon exactly
and containing no listed phrase longer than two characters as a substring
parses as OTHER. -/
theorem parse_confirmation_lexicon (r : String) :
    (pyStrip (pyLower r) ∈ AFFIRMATIVE → parse_confirmation r = "CONFIRM") ∧
    (pyStrip (pyLower r) ∈ NEGATIVE → parse_confirmation r = "DENY") ∧
    (pyStrip (pyLower r) ∉ AFFIRMATIVE → pyStrip (pyLower r) ∉ NEGATIVE →
      (∀ p ∈ AFFIRMATIVE ++ NEGATIVE, p.length > 2 →
        strContains (pyStrip (pyLower r)) p = false) →
      parse_confirmation r = "OTHER") := by
  refine ⟨?_, ?_, ?_⟩
  · intro h
    have hc : AFFIRMATIVE.contains (pyStrip (pyLower r)) = true := by simpa using h
    unfold parse_confirmation
    simp only [hc, if_true]
  · intro h
    have hc : NEGATIVE.contains (pyStrip (pyLower r)) = true := by simpa using h
    have hdisj : NEGATIVE.all (fun s => !AFFIRMATIVE.contains s) = true := by decide
    have hmem : pyStrip (pyLower r) ∈ NEGATIVE := by simpa using h
    have hna : AFFIRMATIVE.contains (pyStrip (pyLower r)) = false := by
      simpa using List.all_eq_true.mp hdisj _ hmem
    unfold parse_confirmation
    simp only [hna, hc, Bool.false_eq_true, if_false, if_true]
  · intro h1 h2 h3
    have ha : AFFIRMATIVE.contains (pyStrip (pyLower r)) = false := by
      cases hc : AFFIRMATIVE.contains (pyStrip (pyLower r)) with
      | false => rfl
      | true => exact absurd (by simpa using hc) h1
    have hb : NEGATIVE.contains (pyStrip (pyLower r)) = false := by
      cases hc : NEGATIVE.contains (pyStrip (pyLower r)) with
      | false => rfl
      | true => exact absurd (by simpa using hc) h2
    have hany1 : AFFIRMATIVE.any
        (fun p => p.length > 2 && strContains (pyStrip (pyLower r)) p) = false := by
      cases hy : AFFIRMATIVE.any
          (fun p => p.length > 2 && strContains (pyStrip (pyLower r)) p) with
      | false => rfl
      | true =>
        obtain ⟨p, hp, hcond⟩ := List.any_eq_true.mp hy
        have hcond2 : p.length > 2 ∧ strContains (pyStrip (pyLower r)) p = true := by
          simpa using hcond
        obtain ⟨hlen, hsub⟩ := hcond2
        have := h3 p (List.mem_append.mpr (Or.inl hp)) hlen
        rw [this] at hsub
        cases hsub
    have hany2 : NEGATIVE.any
        (fun p => p.length > 2 && strContains (pyStrip (pyLower r)) p) = false := by
      cases hy : NEGATIVE.any
          (fun p => p.length > 2 && strContains (pyStrip (pyLower r)) p) with
      | false => rfl
      | true =>
        obtain ⟨p, hp, hcond⟩ := List.any_eq_true.mp hy
        have hcond2 : p.length > 2 ∧ strContains (pyStrip (pyLower r)) p = true := by
          simpa using hcond
        obtain ⟨hlen, hsub⟩ := hcond2
        have := h3 p (List.mem_append.mpr (Or.inr hp)) hlen
        rw [this] at hsub
        cases hsub
    unfold parse_confirmation
    simp only [ha, hb, hany1, hany2, Bool.false_eq_true, if_false]

set_option maxRecDepth 8192 in
/-- Witness for C7 at yeah, nope and an unrelated sentence. -/
theorem parse_confirmation_lexicon_witness :
    parse_confirmation " YEAH " = "CONFIRM" ∧ parse_confirmation "nope" = "DENY" ∧
    parse_confirmation "that is a strange question" = "OTHER" :=
  ⟨(parse_confirmation_lexicon " YEAH ").1 (by decide),
   (parse_confirmation_lexicon "nope").2.1 (by decide),
   (parse_confirmation_lexicon "that is a strange question").2.2 (by decide) (by decide)
     (by decide)⟩

lemma countEq_comm (l1 l2 : List Char) : countEq l1 l2 = countEq l2 l1 := by
  induction l1 generalizing l2 with
  | nil => cases l2 <;> simp only [countEq]
  | cons a as ih =>
    cases l2 with
    | nil => simp [countEq]
    | cons b bs =>
      simp only [countEq, ih bs]
      congr 1
      by_cases hab : a = b
      · simp [hab]
      · rw [if_neg hab, if_neg (fun h : b = a => hab h.symm)]

/-- C9: for names that fall through to the character-position-overlap
fallback (no exact match after lowering and trimming, neither contained
in the other, first tokens distinct), the fuzzy score is symmetric. -/
theorem fuzzy_fallback_symmetric (a b : String)
    (h1 : pyStrip (pyLower a) ≠ pyStrip (pyLower b))
    (h2 : strContains (pyStrip (pyLower b)) (pyStrip (pyLower a)) = false)
    (h3 : strContains (pyStrip (pyLower a)) (pyStrip (pyLower b)) = false)
    (h4 : firstToken (pyStrip (pyLower a)) ≠ firstToken (pyStrip (pyLower b))) :
    fuzzy_match_name a b = fuzzy_match_name b a := by
  unfold fuzzy_match_name
  simp only [h2, h3, Bool.or_self, Bool.false_eq_true, if_false, if_neg h1,
    if_neg (Ne.symm h1), if_neg h4, if_neg (Ne.symm h4)]
  rw [Nat.max_comm, countEq_comm]

/-- Witness for C9 at the pair abc / dbq, where the fallback ratio is one
third both ways. -/
theorem fuzzy_fallback_symmetric_witness :
    fuzzy_match_name "abc" "dbq" = fuzzy_match_name "dbq" "abc" ∧
    fuzzy_match_name "abc" "dbq" = Frac.mk 1 3 :=
  ⟨fuzzy_fallback_symmetric "abc" "dbq" (by decide) (by decide) (by decide) (by decide),
   by decide⟩

lemma Frac.le_refl (a : Frac) : Frac.le a a = true := by simp [Frac.le]

lemma Frac.le_of_lt {a b : Frac} (h : Frac.lt a b = true) : Frac.le a b = true := by
  simp only [Frac.lt, decide_eq_true_eq] at h
  simp only [Frac.le, decide_eq_true_eq]
  omega

lemma Frac.lt_of_not_le {a b : Frac} (h : Frac.le a b = false) : Frac.lt b a = true := by
  simp only [Frac.le, decide_eq_false_iff_not, decide_eq_true_eq, not_le] at h
  simp only [Frac.lt, decide_eq_true_eq]
  omega

lemma Frac.le_of_not_lt {a b : Frac} (h : Frac.lt a b = false) : Frac.le b a = true := by
  simp only [Frac.lt, decide_eq_false_iff_not, decide_eq_true_eq, not_lt] at h
  simp only [Frac.le, decide_eq_true_eq]
  omega

lemma Frac.le_trans {a b c : Frac} (hb : 0 < b.den) (h1 : Frac.le a b = true)
    (h2 : Frac.le b c = true) : Frac.le a c = true := by
  simp only [Frac.le, decide_eq_true_eq] at h1 h2 ⊢
  have key : a.num * c.den * b.den ≤ c.num * a.den * b.den := by
    calc a.num * c.den * b.den = a.num * b.den * c.den := by ring
    _ ≤ b.num * a.den * c.den := Nat.mul_le_mul_right _ h1
    _ = b.num * c.den * a.den := by ring
    _ ≤ c.num * b.den * a.den := Nat.mul_le_mul_right _ h2
    _ = c.num * a.den * b.den := by ring
  exact Nat.le_of_mul_le_mul_right key hb

lemma fuzzy_den_pos (a b : String) : 0 < (fuzzy_match_name a b).den := by
  unfold fuzzy_match_name
  simp only []
  split_ifs <;> simp_all
  all_goals omega

lemma findSimilarAux_sound (name : String) (rows : List (List String)) :
    ∀ (idx : Nat) (b : Frac) (best : Option FSMatch),
      0 < b.den →
      ((best = none ∧ b = Frac.mk 0 1) ∨
        (∃ m0, best = some m0 ∧ m0.score = b ∧ Frac.le (Frac.mk 8 10) b = true)) →
      (findSimilarAux name rows idx b best = none →
        best = none ∧ ∀ row ∈ rows, rowActive row = true →
          Frac.le (Frac.mk 8 10) (fuzzy_match_name name (row.getD 0 "")) = false) ∧
      (∀ m, findSimilarAux name rows idx b best = some m →
        Frac.le (Frac.mk 8 10) m.score = true ∧ 0 < m.score.den ∧ Frac.le b m.score = true ∧
        ∀ row ∈ rows, rowActive row = true →
          Frac.le (fuzzy_match_name name (row.getD 0 "")) m.score = true) := by
  induction rows with
  | nil =>
    intro idx b best hb hinv
    constructor
    · intro h
      rw [findSimilarAux] at h
      exact ⟨h, by simp⟩
    · intro m hm
      rw [findSimilarAux] at hm
      rcases hinv with ⟨hbn, _⟩ | ⟨m0, hm0, hsc, h8⟩
      · rw [hbn] at hm; cases hm
      · rw [hm0] at hm
        cases hm
        exact ⟨hsc ▸ h8, hsc ▸ hb, hsc ▸ Frac.le_refl b, by simp⟩
  | cons row rest ih =>
    intro idx b best hb hinv
    rw [findSimilarAux]
    simp only []
    by_cases hact : rowActive row = true
    · rw [if_pos hact]
      by_cases hcond : (Frac.lt b (fuzzy_match_name name (row.getD 0 "")) &&
          Frac.le (Frac.mk 8 10) (fuzzy_match_name name (row.getD 0 ""))) = true
      · rw [if_pos hcond]
        have hcond2 : Frac.lt b (fuzzy_match_name name (row.getD 0 "")) = true ∧
            Frac.le (Frac.mk 8 10) (fuzzy_match_name name (row.getD 0 "")) = true := by
          simpa using hcond
        obtain ⟨hlt, hge⟩ := hcond2
        have hrec := ih (idx + 1) (fuzzy_match_name name (row.getD 0 ""))
          (some (mkFSMatch idx row (fuzzy_match_name name (row.getD 0 ""))))
          (fuzzy_den_pos name (row.getD 0 ""))
          (Or.inr ⟨mkFSMatch idx row (fuzzy_match_name name (row.getD 0 "")), rfl, rfl, hge⟩)
        constructor
        · intro h
          obtain ⟨hres, _⟩ := hrec.1 h
          cases hres
        · intro m hm
          obtain ⟨m8, mden, mle, mrows⟩ := hrec.2 m hm
          refine ⟨m8, mden, ?_, ?_⟩
          · exact Frac.le_trans (fuzzy_den_pos name (row.getD 0 "")) (Frac.le_of_lt hlt) mle
          · intro r hr hra
            rcases List.mem_cons.mp hr with rfl | hr2
            · exact mle
            · exact mrows r hr2 hra
      · rw [if_neg hcond]
        have hnot : Frac.lt b (fuzzy_match_name name (row.getD 0 "")) = false ∨
            Frac.le (Frac.mk 8 10) (fuzzy_match_name name (row.getD 0 "")) = false := by
          cases hf1 : Frac.lt b (fuzzy_match_name name (row.getD 0 "")) with
          | false => exact Or.inl rfl
          | true =>
            cases hf2 : Frac.le (Frac.mk 8 10) (fuzzy_match_name name (row.getD 0 "")) with
            | false => exact Or.inr rfl
            | true => exact absurd (by rw [hf1, hf2]; rfl) hcond
        have hrec := ih (idx + 1) b best hb hinv
        constructor
        · intro h
          obtain ⟨hbest, hrows⟩ := hrec.1 h
          refine ⟨hbest, ?_⟩
          intro r hr hra
          rcases List.mem_cons.mp hr with rfl | hr2
          · rcases hinv with ⟨_, hb0⟩ | ⟨m0, hm0, _, _⟩
            · rcases hnot with hf | hf
              · cases hc2 : Frac.le (Frac.mk 8 10) (fuzzy_match_name name (r.getD 0 "")) with
                | false => rfl
                | true =>
                  subst hb0
                  simp only [Frac.lt, Frac.le, decide_eq_false_iff_not, decide_eq_true_eq,
                    not_lt] at hf hc2
                  have hd := fuzzy_den_pos name (r.getD 0 "")
                  omega
              · exact hf
            · rw [hbest] at hm0; cases hm0
          · exact hrows r hr2 hra
        · intro m hm
          obtain ⟨m8, mden, mle, mrows⟩ := hrec.2 m hm
          refine ⟨m8, mden, mle, ?_⟩
          intro r hr hra
          rcases List.mem_cons.mp hr with rfl | hr2
          · rcases hnot with hf | hf
            · exact Frac.le_trans hb (Frac.le_of_not_lt hf) mle
            · exact Frac.le_trans (by decide) (Frac.le_of_lt (Frac.lt_of_not_le hf)) m8
          · exact mrows r hr2 hra
    · rw [if_neg hact]
      have hrec := ih (idx + 1) b best hb hinv
      constructor
      · intro h
        obtain ⟨hbest, hrows⟩ := hrec.1 h
        refine ⟨hbest, ?_⟩
        intro r hr hra
        rcases List.mem_cons.mp hr with rfl | hr2
        · exact absurd hra hact
        · exact hrows r hr2 hra
      · intro m hm
        obtain ⟨m8, mden, mle, mrows⟩ := hrec.2 m hm
        refine ⟨m8, mden, mle, ?_⟩
        intro r hr hra
        rcases List.mem_cons.mp hr with rfl | hr2
        · exact absurd hra hact
        · exact mrows r hr2 hra

/-- C2 counterexample: with two active tied rows both named Alex, the
specification contract lists both candidates (rows 2 and 3, descending
score with ties retained), but the source search returns a single best
match — only row 2; the tied candidate at row 3, though active and
scoring at least 0.8, is not retained in the result. -/
theorem find_similar_person_drops_tied_candidate :
    (find_candidates_spec "Alex"
        [["Name", "Context", "Notes", "Fups", "Last", "MsgId", "Active"],
         ["Alex", "ctx a", "", "", "", "7", "TRUE"],
         ["Alex", "ctx b", "", "", "", "8", "TRUE"]]).map (fun m => m.row_idx) = [2, 3] ∧
    rowActive ["Alex", "ctx b", "", "", "", "8", "TRUE"] = true ∧
    Frac.le (Frac.mk 8 10) (fuzzy_match_name "Alex" "Alex") = true ∧
    (find_similar_person "Alex"
        [["Name", "Context", "Notes", "Fups", "Last", "MsgId", "Active"],
         ["Alex", "ctx a", "", "", "", "7", "TRUE"],
         ["Alex", "ctx b", "", "", "", "8", "TRUE"]]).toList.map (fun m => m.row_idx) = [2] := by
  decide

/-- C2 amended: the similar-person search returns at most one record —
when it returns none, no active data row scores at least 0.8 against the
queried name; when it returns a match, that match scores at least 0.8 and
every active data row scores no higher, so only a single best-scoring
candidate is ever produced rather than the full ordered candidate list. -/
theorem find_similar_person_single_best (name : String) (rows : List (List String)) :
    (find_similar_person name rows = none →
      ∀ row ∈ rows.drop 1, rowActive row = true →
        Frac.le (Frac.mk 8 10) (fuzzy_match_name name (row.getD 0 "")) = false) ∧
    (∀ m, find_similar_person name rows = some m →
      Frac.le (Frac.mk 8 10) m.score = true ∧
      ∀ row ∈ rows.drop 1, rowActive row = true →
        Frac.le (fuzzy_match_name name (row.getD 0 "")) m.score = true) := by
  have h := findSimilarAux_sound name (rows.drop 1) 2 (Frac.mk 0 1) none (by decide)
    (Or.inl ⟨rfl, rfl⟩)
  constructor
  · intro hn
    exact (h.1 hn).2
  · intro m hm
    obtain ⟨m8, _, _, mrows⟩ := h.2 m hm
    exact ⟨m8, mrows⟩

/-- Witness for the amended C2: on a table with one active Alex row and
one inactive row, the search returns the Alex match, which scores at
least 0.8 and dominates every active row. -/
theorem find_similar_person_single_best_witness :
    Frac.le (Frac.mk 8 10)
      (mkFSMatch 2 ["Alex", "c", "", "", "", "7", "TRUE"] (Frac.mk 1 1)).score = true ∧
    Frac.le (fuzzy_match_name "Alex" "Alex")
      (mkFSMatch 2 ["Alex", "c", "", "", "", "7", "TRUE"] (Frac.mk 1 1)).score = true := by
  have h := (find_similar_person_single_best "Alex"
    [["Name"], ["Alex", "c", "", "", "", "7", "TRUE"], ["Bob", "d", "", "", "", "8", "FALSE"]]).2
    (mkFSMatch 2 ["Alex", "c", "", "", "", "7", "TRUE"] (Frac.mk 1 1)) (by decide)
  exact ⟨h.1, h.2 ["Alex", "c", "", "", "", "7", "TRUE"] (by decide) (by decide)⟩

end SecondBrain
